import Mathlib

/-!
Shallow embedding of the DonorDrivePython aggregation core
(src/donordrivepython/api: activity.py, participant.py, team.py,
team_groups.py) and proofs about the claims of its specification.

Python dictionaries decoded from JSON are modelled as association lists of
string keys to JSON values; `dict.get(k)` returns an `Option` and
`dict.get(k, d)` substitutes the default only when the key is absent,
exactly as in Python.  Machine floats carrying money amounts are modelled
as rationals.  The network layer (module `comms`, absent from the source
tree) is modelled from the specification where the source calls into it;
every such definition is marked `Modelled from the spec:` in its doc
comment.
-/

namespace DonorDrive

/-- A decoded JSON value, as handed to the record builders. -/
inductive JVal where
  | jnull
  | jbool (b : Bool)
  | jnum (q : ℚ)
  | jstr (s : String)
  | jobj (fields : List (String × JVal))
  | jarr (elems : List JVal)

/-- Python equality of a possibly-absent JSON value against a string
literal: true only when the value is that very string (Python == between a
string and a non-string, or against None, is False). -/
def jeqStr : Option JVal → String → Bool
  | some (JVal.jstr s), t => s = t
  | _, _ => false

/-- A decoded JSON object: an association list from keys to values. -/
abbrev Json := List (String × JVal)

/-- Python dict.get(key): the stored value, or None when the key is absent. -/
def jget (j : Json) (k : String) : Option JVal :=
  match j.find? (fun p => p.1 = k) with
  | some p => some p.2
  | none => none

/-- Python dict.get(key, default): the stored value, or the default only when
the key is absent (a stored null is returned as-is, not replaced). -/
def jgetD (j : Json) (k : String) (d : JVal) : JVal :=
  (jget j k).getD d

/-- Python dict assignment d[k] = v on a dictionary with unique keys:
replaces the value in place, or appends preserving insertion order. -/
def dictSet : List (String × String) → String → String → List (String × String)
  | [], k, v => [(k, v)]
  | p :: rest, k, v => if p.1 = k then (k, v) :: rest else p :: dictSet rest k v

/-- Python dict lookup d[k] on a string dictionary: the first stored value
for the key. -/
def dictGet (d : List (String × String)) (k : String) : Option String :=
  match d.find? (fun p => p.1 = k) with
  | some p => some p.2
  | none => none

/-- Python truthiness of a string: nonempty strings are truthy. -/
def pyTruthyStr (s : String) : Bool := s ≠ ""

/- ## activity.py -/

/-- Fields shared by every activity class (activity.py, class Activity).
Each field holds whatever json_data.get returned, possibly None. -/
structure ActivityBase where
  created_date : Option JVal
  image_url : Option JVal
  type_tag : Option JVal

/-- The activity class hierarchy of activity.py as a sum: DonationActivity,
BadgeActivity, and the base Activity class for anything else. -/
inductive Activity where
  | donationAct (amount : Option JVal) (base : ActivityBase)
      (is_incentive message title : Option JVal)
  | badgeAct (base : ActivityBase) (message title : Option JVal)
  | genericAct (base : ActivityBase)

/-- True exactly on the BadgeActivity variant. -/
def Activity.isBadgeActivity : Activity → Bool
  | .badgeAct _ _ _ => true
  | _ => false

/-- True exactly on the base-class (generic) variant. -/
def Activity.isGenericActivity : Activity → Bool
  | .genericAct _ => true
  | _ => false

/-- True exactly on the DonationActivity variant. -/
def Activity.isDonationActivity : Activity → Bool
  | .donationAct _ _ _ _ _ => true
  | _ => false

/-- The amount a DonationActivity exposes (none on the other variants). -/
def Activity.activityAmount : Activity → Option JVal
  | .donationAct amount _ _ _ _ => amount
  | _ => none

/-- activity.py create_activity.  The second branch translates Python's
`elif type == "participantBadge" or "teamBadge":`, in which the right
operand of `or` is the (always truthy) string literal "teamBadge", so the
branch is taken for every tag that is not "donation". -/
def create_activity (json_data : Json) : Activity :=
  let amount := jget json_data "amount"
  let created_date := jget json_data "createdDateUTC"
  let image_url := jget json_data "imageURL"
  let is_incentive := jget json_data "isIncentive"
  let message := jget json_data "message"
  let title := jget json_data "title"
  let ty := jget json_data "type"
  if jeqStr ty "donation" then
    Activity.donationAct amount ⟨created_date, image_url, ty⟩ is_incentive message title
  else if jeqStr ty "participantBadge" || pyTruthyStr "teamBadge" then
    Activity.badgeAct ⟨created_date, image_url, ty⟩ message title
  else
    Activity.genericAct ⟨created_date, image_url, ty⟩

/- ## Record builders: Milestone, Incentive (participant.py), TeamGroup -/

/-- participant.py dataclass Milestone.  Required fields are read with a
bare dict.get and so may be unset (None); defaulted fields always hold a
value. -/
structure Milestone where
  description : Option JVal
  fundraising_goal : Option JVal
  is_active : Option JVal
  milestone_id : Option JVal
  is_complete : JVal
  links : JVal
  end_date_utc : JVal
  start_date_utc : JVal

/-- participant.py Milestone.create_milestone. -/
def create_milestone (json_data : Json) : Milestone :=
  { description := jget json_data "description"
    fundraising_goal := jget json_data "fundraisingGoal"
    is_active := jget json_data "isActive"
    milestone_id := jget json_data "milestoneID"
    is_complete := jgetD json_data "isComplete" (JVal.jbool false)
    links := jgetD json_data "links" (JVal.jobj [])
    end_date_utc := jgetD json_data "endDateUTC" (JVal.jstr "")
    start_date_utc := jgetD json_data "startDateUTC" (JVal.jstr "") }

/-- participant.py dataclass Incentive. -/
structure Incentive where
  amount : Option JVal
  description : Option JVal
  incentive_id : Option JVal
  is_active : Option JVal
  end_date_utc : JVal
  incentive_image_url : JVal
  links : JVal
  start_date_utc : JVal
  quantity : JVal
  quantity_claimed : JVal

/-- participant.py Incentive.create_incentive. -/
def create_incentive (json_data : Json) : Incentive :=
  { amount := jget json_data "amount"
    description := jget json_data "description"
    incentive_id := jget json_data "incentiveID"
    is_active := jget json_data "isActive"
    end_date_utc := jgetD json_data "endDateUTC" (JVal.jstr "")
    incentive_image_url := jgetD json_data "incentiveImageURL" (JVal.jstr "")
    links := jgetD json_data "links" (JVal.jobj [])
    start_date_utc := jgetD json_data "startDateUTC" (JVal.jstr "")
    quantity := jgetD json_data "quantity" (JVal.jnum 0)
    quantity_claimed := jgetD json_data "quantityClaimed" (JVal.jnum 0) }

/-- team_groups.py dataclass TeamGroup: every field is read with a bare
dict.get, so each may be unset. -/
structure TeamGroup where
  fundraising_goal : Option JVal
  group_code : Option JVal
  name : Option JVal
  number_of_donations : Option JVal
  number_of_participants : Option JVal
  number_of_teams : Option JVal
  sum_of_donations : Option JVal

/-- team_groups.py create_team_group. -/
def create_team_group (json_data : Json) : TeamGroup :=
  { fundraising_goal := jget json_data "fundraisingGoal"
    group_code := jget json_data "groupCode"
    name := jget json_data "name"
    number_of_donations := jget json_data "numDonations"
    number_of_participants := jget json_data "numParticipants"
    number_of_teams := jget json_data "numTeams"
    sum_of_donations := jget json_data "sumDonations" }

/- ## Currency formatting: Python format spec `,.2f` -/

/-- The decimal digit character for d < 10. -/
def digitChar (d : ℕ) : Char := Char.ofNat (48 + d)

/-- Fueled digit extraction, least significant digit first.  The fuel only
bounds the recursion depth; `natDigitsRev` always passes enough. -/
def natDigitsRevFuel : ℕ → ℕ → List Char
  | 0, _ => []
  | fuel + 1, n =>
    if n < 10 then [digitChar n] else digitChar (n % 10) :: natDigitsRevFuel fuel (n / 10)

/-- The decimal digits of a natural number, least significant first. -/
def natDigitsRev (n : ℕ) : List Char := natDigitsRevFuel (n + 1) n

/-- Fueled thousands grouping on a reversed digit list; the fuel only bounds
the recursion depth and `groupRev` always passes enough. -/
def groupRevFuel : ℕ → List Char → List Char
  | 0, ds => ds
  | fuel + 1, ds =>
    if ds.length ≤ 3 then ds else ds.take 3 ++ ',' :: groupRevFuel fuel (ds.drop 3)

/-- Thousands grouping on a reversed digit list: a comma after every three
digits counted from the least significant end, as the format spec `,`
does. -/
def groupRev (ds : List Char) : List Char := groupRevFuel ds.length ds

/-- Two decimal digits, zero padded, for m < 100. -/
def pad2 (m : ℕ) : List Char :=
  if m < 10 then ['0', digitChar m] else [digitChar (m / 10), digitChar (m % 10)]

/-- Round to the nearest integer, ties to even, as Python's fixed-point
formatting rounds the value it displays.  Stated on the numerator of the
fractional part so that it evaluates by integer arithmetic alone:
the fractional part q - floor q equals rnum / q.den. -/
def roundHalfEven (q : ℚ) : ℤ :=
  let f := q.floor
  let rnum := q.num - f * (q.den : ℤ)
  if 2 * rnum < (q.den : ℤ) then f
  else if (q.den : ℤ) < 2 * rnum then f + 1
  else if f % 2 = 0 then f else f + 1

/-- Rendering of the Python format spec `,.2f` on a number: the value
rounded to hundredths, written with a thousands-grouped integer part and
exactly two decimal digits, an initial minus sign when negative. -/
def pyCommaFixed2 (q : ℚ) : String :=
  let c := roundHalfEven (q * 100)
  let sign := if c < 0 then "-" else ""
  let n := c.natAbs
  sign ++ String.mk (groupRev (natDigitsRev (n / 100))).reverse
       ++ "." ++ String.mk (pad2 (n % 100))

/-- participant.py Participant._format_participant_info_for_output:
the f-string `f"{self.currency_symbol}{participant_attribute:,.2f}"`. -/
def format_participant_info_for_output (currency_symbol : String) (participant_attribute : ℚ) :
    String :=
  currency_symbol ++ pyCommaFixed2 participant_attribute

/- ## Records handled by the comms layer -/

/-- A donation record as built by the comms layer (spec §3). -/
structure Donation where
  donor_name : String
  amount : ℚ
  message : Option String
deriving DecidableEq

/-- A donor record as built by the comms layer (spec §3). -/
structure Donor where
  donor_name : String
  amount : ℚ
deriving DecidableEq

/-- A team participant record (team_participant.py is consumed opaquely;
spec §3 gives display name, amount raised and an ID). -/
structure TeamParticipant where
  name : String
  amount : ℚ
  participant_id : String
deriving DecidableEq

/-- A badge record as built by the comms layer (spec §3). -/
structure BadgeRec where
  badge_text : String
deriving DecidableEq

/- ## The comms fetch layer, modelled from the spec -/

/-- Modelled from the spec: comms.get_donations is not under src/.  The
caller hands it the list it currently holds; per the failure semantics of
§4.5 a fetch failure keeps the previous cycle's values, so it returns the
fetched list when the fetch succeeded and the given previous list
otherwise.  A successful fetch of an empty list is a valid empty result
(§6) and is returned as such. -/
def get_donations {α : Type} (prev : List α) (fetched : Option (List α)) : List α :=
  match fetched with
  | some l => l
  | none => prev

/-- Modelled from the spec: comms.get_badges is not under src/.  It does
not receive the caller's previous list, so it cannot retain it; on a fetch
failure it yields the empty collection (the failure signal is falsy, as the
truthiness checks in participant.py and team.py show). -/
def get_badges (fetched : Option (List BadgeRec)) : List BadgeRec :=
  match fetched with
  | some l => l
  | none => []

/-- Modelled from the spec: comms.get_json is not under src/.  It returns
decoded JSON or a falsy failure signal (an empty collection, distinct from
None because the callers in participant.py iterate the result directly);
iterating the failure signal yields no elements, which this list view
renders as the empty list. -/
def get_json_list (fetched : Option (List Json)) : List Json :=
  match fetched with
  | some l => l
  | none => []

/-- Modelled from the spec: comms.get_activities is not under src/.  Like
get_badges it receives no previous list, so on failure it yields the empty
collection. -/
def get_activities (fetched : Option (List Json)) : List Activity :=
  (get_json_list fetched).map create_activity

/-- Modelled from the spec: comms.single_format is not under src/.  Per
§4.4 it renders one amount-bearing record as a name plus currency-formatted
amount display string. -/
def single_format (donor_name : String) (amount : ℚ) (currency_symbol : String) : String :=
  donor_name ++ " - " ++ currency_symbol ++ pyCommaFixed2 amount

/-- Modelled from the spec: comms.multiple_format is not under src/.  Per
§4.4 it renders up to n records as name+amount lines, joined by the chosen
separator. -/
def multiple_format (participants : List TeamParticipant) (horizontal : Bool)
    (currency_symbol : String) (n : ℕ) : String :=
  let sep := if horizontal then " | " else "\n"
  String.intercalate sep
    ((participants.take n).map (fun p => single_format p.name p.amount currency_symbol))

/-- Modelled from the spec: comms.format_information_for_output is not
under src/.  Per §4.4 it produces the fixed-key mapping of display strings
for a list of donations; the exact rendering is irrelevant to the claims,
which only observe whether this mapping was recomputed or kept. -/
def format_information_for_output (records : List Donation) (currency_symbol : String)
    (n : ℕ) (team : Bool) : List (String × String) :=
  let keyHead := if team then "Team_" else ""
  let line := fun (d : Donation) => single_format d.donor_name d.amount currency_symbol
  [(keyHead ++ "LastDonationNameAmnt", (records.map line).headD ""),
   (keyHead ++ "lastNDonationNameAmts", String.intercalate "\n" ((records.take n).map line)),
   (keyHead ++ "lastNDonationNameAmtsMessage",
      String.intercalate "\n" ((records.take n).map line)),
   (keyHead ++ "lastNDonationNameAmtsMessageHorizontal",
      String.intercalate " | " ((records.take n).map line)),
   (keyHead ++ "lastNDonationNameAmtsHorizontal",
      String.intercalate " | " ((records.take n).map line))]

/- ## team.py -/

/-- The values _get_team_json reads from a successfully fetched team JSON
object: the keys fundraisingGoal, captainDisplayName, sumDonations,
numDonations and avatarImageURL. -/
structure TeamJson where
  fundraisingGoal : ℚ
  captainDisplayName : String
  sumDonations : ℚ
  numDonations : ℤ
  avatarImageURL : String

/-- One cycle's fetch results for the Team endpoints; none is the
fetch-failure signal.  For the team JSON itself a successful fetch of an
empty object is also falsy in Python and is identified with none here. -/
structure TeamFetch where
  teamJson : Option TeamJson
  participants : Option (List TeamParticipant)
  top5Participants : Option (List TeamParticipant)
  donations : Option (List Donation)
  badges : Option (List BadgeRec)
  activities : Option (List Json)

/-- The mutable state of team.py class Team. -/
structure TeamState where
  team_id : String
  currency_symbol : String
  donors_to_display : ℕ
  team_info : List (String × String)
  team_goal : ℚ
  team_captain : String
  total_raised : ℚ
  num_donations : ℤ
  team_avatar_image : String
  participant_calculation_dict : List (String × String)
  top_5_participant_list : List TeamParticipant
  participant_list : List TeamParticipant
  donation_list : List Donation
  donation_formatted_output : List (String × String)
  badges : List BadgeRec
  activity_list : List Activity

/-- team.py Team.__init__: initial field values for a fresh Team. -/
def initTeamState (team_id currency_symbol : String) (donors_to_display : ℕ) : TeamState :=
  { team_id := team_id
    currency_symbol := currency_symbol
    donors_to_display := donors_to_display
    team_info := []
    team_goal := 0
    team_captain := ""
    total_raised := 0
    num_donations := 0
    team_avatar_image := ""
    participant_calculation_dict := []
    top_5_participant_list := []
    participant_list := []
    donation_list := []
    donation_formatted_output :=
      [("Team_LastDonationNameAmnt", "No Donations Yet"),
       ("Team_lastNDonationNameAmts", "No Donations Yet"),
       ("Team_lastNDonationNameAmtsMessage", "No Donations Yet"),
       ("Team_lastNDonationNameAmtsMessageHorizontal", "No Donations Yet"),
       ("Team_lastNDonationNameAmtsHorizontal", "No Donations Yet")]
    badges := []
    activity_list := [] }

/-- team.py Team._get_team_json: the five scalar values from the team JSON
when the fetch gave a truthy result, the previous values otherwise (the
failure branch also logs a warning; the log is modelled separately by
team_run_warnings). -/
def get_team_json (s : TeamState) (inp : TeamFetch) : ℚ × String × ℚ × ℤ × String :=
  match inp.teamJson with
  | some j => (j.fundraisingGoal, j.captainDisplayName, j.sumDonations, j.numDonations,
               j.avatarImageURL)
  | none => (s.team_goal, s.team_captain, s.total_raised, s.num_donations,
             s.team_avatar_image)

/-- team.py Team._update_team_dictionary: the four output entries, the goal
and total rendered through the currency f-strings. -/
def update_team_dictionary (s : TeamState) : TeamState :=
  let d1 := dictSet s.team_info "Team_goal" (s.currency_symbol ++ pyCommaFixed2 s.team_goal)
  let d2 := dictSet d1 "Team_captain" s.team_captain
  let d3 := dictSet d2 "Team_totalRaised" (s.currency_symbol ++ pyCommaFixed2 s.total_raised)
  let d4 := dictSet d3 "Team_numDonations" (toString s.num_donations)
  { s with team_info := d4 }

/-- team.py Team._get_participants: the fetched list when it is truthy
(non-empty), otherwise the previous list of the requested kind with a
warning logged (the log is modelled separately by team_run_warnings).  An
empty successful result is falsy in Python and also takes the warning
branch. -/
def get_participants (s : TeamState) (top5 : Bool) (fetched : Option (List TeamParticipant)) :
    List TeamParticipant :=
  match fetched with
  | some l =>
    if l.isEmpty then (if top5 then s.top_5_participant_list else s.participant_list)
    else l
  | none => if top5 then s.top_5_participant_list else s.participant_list

/-- team.py Team._top_participant: a formatted string for the first element
of the top-5 list, or the placeholder "No participants." when the list is
empty. -/
def top_participant (s : TeamState) : String :=
  match s.top_5_participant_list with
  | p :: _ => p.name ++ " - $" ++ pyCommaFixed2 p.amount
  | [] => "No participants."

/-- team.py Team._participant_calculations: the three derived participant
output entries. -/
def participant_calculations (s : TeamState) : TeamState :=
  let d1 := dictSet s.participant_calculation_dict "Team_TopParticipantNameAmnt"
      (top_participant s)
  let d2 := dictSet d1 "Team_Top5ParticipantsHorizontal"
      (multiple_format s.top_5_participant_list true s.currency_symbol 5)
  let d3 := dictSet d2 "Team_Top5Participants"
      (multiple_format s.top_5_participant_list false s.currency_symbol 5)
  { s with participant_calculation_dict := d3 }

/-- team.py Team.team_api_info: refresh the five scalars from the team
JSON, rebuild the output dictionary, refresh the badges. -/
def team_api_info (s : TeamState) (inp : TeamFetch) : TeamState :=
  let v := get_team_json s inp
  let s1 := { s with team_goal := v.1, team_captain := v.2.1, total_raised := v.2.2.1,
                     num_donations := v.2.2.2.1, team_avatar_image := v.2.2.2.2 }
  let s2 := update_team_dictionary s1
  { s2 with badges := get_badges inp.badges }

/-- team.py Team.participant_run: refresh both participant lists and the
derived calculations. -/
def participant_run (s : TeamState) (inp : TeamFetch) : TeamState :=
  let s1 := { s with participant_list := get_participants s false inp.participants }
  let s2 := { s1 with top_5_participant_list :=
                get_participants s1 true inp.top5Participants }
  participant_calculations s2

/-- team.py Team.donation_run: refresh the donation list, and rebuild the
formatted output only when the refreshed list is non-empty. -/
def donation_run (s : TeamState) (inp : TeamFetch) : TeamState :=
  let dl := get_donations s.donation_list inp.donations
  let s1 := { s with donation_list := dl }
  if dl.isEmpty then s1
  else { s1 with donation_formatted_output :=
          format_information_for_output dl s1.currency_symbol s1.donors_to_display true }

/-- team.py Team.team_run: snapshot the donation count, refresh scalars and
badges unconditionally, and refresh the participant and donation views only
when the refreshed donation count exceeds the snapshot. -/
def team_run (s : TeamState) (inp : TeamFetch) : TeamState :=
  let number_of_donations := s.num_donations
  let s1 := team_api_info s inp
  if number_of_donations < s1.num_donations then donation_run (participant_run s1 inp) inp
  else s1

/-- The warnings team.py logs during one team_run cycle: _get_team_json
warns when the team JSON fetch fails, and each _get_participants call warns
when its fetch result is falsy, but only when the gated refresh runs. -/
def team_run_warnings (s : TeamState) (inp : TeamFetch) : List String :=
  let jsonWarn : List String :=
    match inp.teamJson with
    | some _ => []
    | none => ["Could not get team JSON"]
  let partWarn : List String :=
    (match inp.participants with
     | some l => if l.isEmpty then ["Couldn't get to URL or possibly no participants."] else []
     | none => ["Couldn't get to URL or possibly no participants."]) ++
    (match inp.top5Participants with
     | some l => if l.isEmpty then ["Couldn't get to URL or possibly no participants."] else []
     | none => ["Couldn't get to URL or possibly no participants."])
  if s.num_donations < (team_api_info s inp).num_donations then jsonWarn ++ partWarn
  else jsonWarn

/- ## participant.py -/

/-- The values _get_participant_info reads from a successfully fetched
participant JSON object. -/
structure PJson where
  sumDonations : ℚ
  numDonations : ℤ
  fundraisingGoal : ℚ
  avatarImageURL : String
  eventName : String
  donateLink : String
  streamLink : String
  pageLink : String
  createdDateUTC : String
  streamIsLive : Bool
  sumPledges : ℚ
  teamName : String
  isTeamCaptain : Bool
  displayName : String

/-- One cycle's fetch results for the Participant endpoints; none is the
fetch-failure signal (a falsy decoded result is identified with it). -/
structure FetchInputs where
  participant : Option PJson
  donations : Option (List Donation)
  topDonations : Option (List Donation)
  donors : Option (List Donor)
  topDonors : Option (List Donor)
  badges : Option (List BadgeRec)
  milestones : Option (List Json)
  incentives : Option (List Json)
  activities : Option (List Json)
  team : TeamFetch

/-- The mutable state of participant.py class Participant. -/
structure ParticipantState where
  donor_drive_id : String
  currency_symbol : String
  team_id : String
  donors_to_display : ℕ
  my_team : Option TeamState
  total_raised : ℚ
  number_of_donations : ℤ
  average_donation : ℚ
  goal : ℚ
  avatar_image_url : String
  event_name : String
  donation_link_url : String
  stream_url : String
  extra_life_page_url : String
  created_date_utc : String
  stream_is_live : Bool
  sum_pledges : ℚ
  team_name : String
  is_team_captain : Bool
  display_name : String
  participant_formatted_output : List (String × String)
  donation_list : List Donation
  ordered_donation_list : List Donation
  top_donation : Option Donation
  top_donation_formatted_output : List (String × String)
  donation_formatted_output : List (String × String)
  top_donor : Option Donor
  top_donor_formatted_output : List (String × String)
  donor_list : List Donor
  ordered_donor_list : List Donor
  donor_formatted_output : List (String × String)
  badges : List BadgeRec
  milestones : List Milestone
  incentives : List Incentive
  activities : List Activity
  first_run : Bool
  new_donation : Bool

/-- participant.py Participant.__init__ together with set_config_values:
the initial state, including every placeholder output mapping, and the
nested Team created exactly when the configured team id is truthy. -/
def initParticipantState (donor_drive_id currency_symbol team_id : String)
    (donors_to_display : ℕ) : ParticipantState :=
  { donor_drive_id := donor_drive_id
    currency_symbol := currency_symbol
    team_id := team_id
    donors_to_display := donors_to_display
    my_team := if pyTruthyStr team_id then
        some (initTeamState team_id currency_symbol donors_to_display)
      else none
    total_raised := 0
    number_of_donations := 0
    average_donation := 0
    goal := 0
    avatar_image_url := ""
    event_name := ""
    donation_link_url := ""
    stream_url := ""
    extra_life_page_url := ""
    created_date_utc := ""
    stream_is_live := false
    sum_pledges := 0
    team_name := ""
    is_team_captain := false
    display_name := ""
    participant_formatted_output :=
      [("totalRaised", currency_symbol ++ "0.00"),
       ("averageDonation", currency_symbol ++ "0.00"),
       ("goal", currency_symbol ++ "0.00")]
    donation_list := []
    ordered_donation_list := []
    top_donation := none
    top_donation_formatted_output := [("TopDonationNameAmnt", "No Donations Yet")]
    donation_formatted_output :=
      [("LastDonationNameAmnt", "No Donations Yet"),
       ("lastNDonationNameAmts", "No Donations Yet"),
       ("lastNDonationNameAmtsMessage", "No Donations Yet"),
       ("lastNDonationNameAmtsMessageHorizontal", "No Donations Yet"),
       ("lastNDonationNameAmtsHorizontal", "No Donations Yet")]
    top_donor := none
    top_donor_formatted_output := [("TopDonorNameAmnt", "No Donors Yet")]
    donor_list := []
    ordered_donor_list := []
    donor_formatted_output :=
      [("LastDonorNameAmnt", "No Donations Yet"),
       ("lastNDonorNameAmts", "No Donations Yet"),
       ("lastNDonorNameAmtsMessage", "No Donations Yet"),
       ("lastNDonorNameAmtsMessageHorizontal", "No Donations Yet"),
       ("lastNDonorNameAmtsHorizontal", "No Donations Yet")]
    badges := []
    milestones := []
    incentives := []
    activities := []
    first_run := true
    new_donation := false }

/-- participant.py Participant.new_donation setter: the only write to the
flag outside run. -/
def set_new_donation (s : ParticipantState) (new_donation_status : Bool) : ParticipantState :=
  { s with new_donation := new_donation_status }

/-- participant.py Participant._get_participant_info: the fourteen values
read from the participant JSON when the fetch gave a truthy result (with
the team fields blanked when no team is owned), the previous values
otherwise (the failure branch also logs a warning; the log is modelled
separately by run_warnings). -/
def get_participant_info (s : ParticipantState) (inp : FetchInputs) :
    ℚ × ℤ × ℚ × String × String × String × String × String × String × Bool × ℚ ×
      String × Bool × String :=
  match inp.participant with
  | none =>
    (s.total_raised, s.number_of_donations, s.goal, s.avatar_image_url, s.event_name,
     s.donation_link_url, s.stream_url, s.extra_life_page_url, s.created_date_utc,
     s.stream_is_live, s.sum_pledges, s.team_name, s.is_team_captain, s.display_name)
  | some j =>
    let team_name := if s.my_team.isSome then j.teamName else ""
    let is_team_captain := if s.my_team.isSome then j.isTeamCaptain else false
    (j.sumDonations, j.numDonations, j.fundraisingGoal, j.avatarImageURL, j.eventName,
     j.donateLink, j.streamLink, j.pageLink, j.createdDateUTC, j.streamIsLive,
     j.sumPledges, team_name, is_team_captain, j.displayName)

/-- participant.py Participant._calculate_average_donation: the quotient,
with a ZeroDivisionError from a zero donation count caught and turned into
0. -/
def calculate_average_donation (total_raised : ℚ) (number_of_donations : ℤ) : ℚ :=
  if number_of_donations = 0 then 0 else total_raised / (number_of_donations : ℚ)

/-- participant.py Participant._fill_participant_dictionary: the four
participant output entries, the money amounts rendered through
_format_participant_info_for_output. -/
def fill_participant_dictionary (s : ParticipantState) : ParticipantState :=
  let d1 := dictSet s.participant_formatted_output "totalRaised"
      (format_participant_info_for_output s.currency_symbol s.total_raised)
  let d2 := dictSet d1 "averageDonation"
      (format_participant_info_for_output s.currency_symbol s.average_donation)
  let d3 := dictSet d2 "goal" (format_participant_info_for_output s.currency_symbol s.goal)
  let d4 := dictSet d3 "numDonations" (toString s.number_of_donations)
  { s with participant_formatted_output := d4 }

/-- participant.py Participant.update_participant_attributes: write the
fourteen fetched scalars and recompute the average donation. -/
def update_participant_attributes (s : ParticipantState) (inp : FetchInputs) :
    ParticipantState :=
  let v := get_participant_info s inp
  let s1 := { s with
    total_raised := v.1
    number_of_donations := v.2.1
    goal := v.2.2.1
    avatar_image_url := v.2.2.2.1
    event_name := v.2.2.2.2.1
    donation_link_url := v.2.2.2.2.2.1
    stream_url := v.2.2.2.2.2.2.1
    extra_life_page_url := v.2.2.2.2.2.2.2.1
    created_date_utc := v.2.2.2.2.2.2.2.2.1
    stream_is_live := v.2.2.2.2.2.2.2.2.2.1
    sum_pledges := v.2.2.2.2.2.2.2.2.2.2.1
    team_name := v.2.2.2.2.2.2.2.2.2.2.2.1
    is_team_captain := v.2.2.2.2.2.2.2.2.2.2.2.2.1
    display_name := v.2.2.2.2.2.2.2.2.2.2.2.2.2 }
  { s1 with average_donation := calculate_average_donation s1.total_raised
              s1.number_of_donations }

/-- participant.py Participant.update_donation_data: only with a positive
donation count, refresh the donation list and its top-sorted view; the top
donation is the head of the sorted view, an IndexError on an empty view
being swallowed so the previous top donation is kept. -/
def update_donation_data (s : ParticipantState) (inp : FetchInputs) : ParticipantState :=
  if 0 < s.number_of_donations then
    let dl := get_donations s.donation_list inp.donations
    let odl := get_donations s.ordered_donation_list inp.topDonations
    match odl with
    | d :: _ => { s with donation_list := dl, ordered_donation_list := odl,
                         top_donation := some d }
    | [] => { s with donation_list := dl, ordered_donation_list := odl }
  else s

/-- participant.py Participant.update_donor_data: only with a positive
donation count, refresh the donor list (the source passes its ordered donor
list to comms as the previous value); anonymous donors can leave the donor
endpoint empty, and the emptiness check then skips the ordered-view and
top-donor refresh.  When the refresh does run, the source assigns the
fetched ordered view and then reads its element 0 without a guard
(participant.py line 399): with an empty view that read raises an
IndexError.  The result pairs the object state - Python mutates in place,
so the new donor list and ordered view survive the raise - with a flag
that is true exactly when the IndexError was raised. -/
def update_donor_data (s : ParticipantState) (inp : FetchInputs) :
    ParticipantState × Bool :=
  if 0 < s.number_of_donations then
    let dl := get_donations s.ordered_donor_list inp.donors
    let s1 := { s with donor_list := dl }
    if dl.isEmpty then (s1, false)
    else
      let odl := get_donations s1.ordered_donor_list inp.topDonors
      let s2 := { s1 with ordered_donor_list := odl }
      match odl with
      | d :: _ => ({ s2 with top_donor := some d }, false)
      | [] => (s2, true)
  else (s, false)

/-- participant.py Participant._update_badges. -/
def p_update_badges (s : ParticipantState) (inp : FetchInputs) : ParticipantState :=
  { s with badges := get_badges inp.badges }

/-- participant.py Participant._update_milestones: the fetched JSON list is
iterated unconditionally, so a fetch failure (a falsy, empty result)
replaces the milestone list with the empty list. -/
def update_milestones (s : ParticipantState) (inp : FetchInputs) : ParticipantState :=
  { s with milestones := (get_json_list inp.milestones).map create_milestone }

/-- participant.py Participant._update_incentives: same unconditional
iteration as _update_milestones. -/
def update_incentives (s : ParticipantState) (inp : FetchInputs) : ParticipantState :=
  { s with incentives := (get_json_list inp.incentives).map create_incentive }

/-- participant.py Participant._update_activities: same unconditional
iteration as _update_milestones. -/
def update_activities (s : ParticipantState) (inp : FetchInputs) : ParticipantState :=
  { s with activities := (get_json_list inp.activities).map create_activity }

/-- The team block at the end of a participant cycle: when the configured
team id is truthy, hand the cycle to the owned team. -/
def run_team_block (s : ParticipantState) (inp : FetchInputs) : ParticipantState :=
  if pyTruthyStr s.team_id then
    match s.my_team with
    | some t => { s with my_team := some (team_run t inp.team) }
    | none => s
  else s

/-- participant.py Participant.run: snapshot the donation count; refresh
scalars, incentives and activities unconditionally; on the first cycle or
when the refreshed count exceeds the snapshot, set the new-donation flag
(except on the first cycle) and refresh donations, donors, badges and
milestones; then hand the cycle to the owned team, and leave the first-run
state.  The donor refresh can raise an uncaught IndexError
(participant.py line 399); the raise aborts the cycle there, so the badge
and milestone refreshes, the team block and the first-run transition never
execute, while the mutations already made survive on the object.  The
result pairs the object state with a flag that is true exactly when the
cycle aborted. -/
def run (s : ParticipantState) (inp : FetchInputs) : ParticipantState × Bool :=
  let number_of_donations := s.number_of_donations
  let s1 := update_participant_attributes s inp
  let s2 := update_incentives s1 inp
  let s3 := update_activities s2 inp
  if s3.first_run || number_of_donations < s3.number_of_donations then
    let s3a := if s3.first_run then s3 else { s3 with new_donation := true }
    let dres := update_donor_data (update_donation_data s3a inp) inp
    if dres.2 then (dres.1, true)
    else
      let s4 := update_milestones (p_update_badges dres.1 inp) inp
      ({ run_team_block s4 inp with first_run := false }, false)
  else ({ run_team_block s3 inp with first_run := false }, false)

/-- The donation count the participant state holds after run's
unconditional scalar refresh: the fetched numDonations on success, the
previous count when the fetch failed. -/
def fetchedCount (s : ParticipantState) (inp : FetchInputs) : ℤ :=
  match inp.participant with
  | some j => j.numDonations
  | none => s.number_of_donations

/-- The warnings participant.py logs during one run cycle:
_get_participant_info warns when the participant JSON fetch fails, and -
unless the cycle aborted before reaching the team block - the owned team
logs its own cycle's warnings. -/
def run_warnings (s : ParticipantState) (inp : FetchInputs) : List String :=
  let pWarn : List String :=
    match inp.participant with
    | some _ => []
    | none => ["Couldn't access participant JSON."]
  let tWarn : List String :=
    if (run s inp).2 then []
    else if pyTruthyStr s.team_id then
      match s.my_team with
      | some t => team_run_warnings t inp.team
      | none => []
    else []
  pWarn ++ tWarn

/- ## Lemmas about the currency rendering -/

/-- Reading back a key after a dictionary write: the written key sees the
new value, every other key is unaffected. -/
lemma dictGet_dictSet (d : List (String × String)) (k v k' : String) :
    dictGet (dictSet d k v) k' = if k' = k then some v else dictGet d k' := by
  induction d with
  | nil =>
    by_cases h : k' = k
    · subst h
      simp [dictGet, dictSet, List.find?]
    · have h2 : ¬ k = k' := fun hk => h hk.symm
      simp [dictGet, dictSet, List.find?, h, h2]
  | cons p rest ih =>
    by_cases hp : p.1 = k
    · by_cases h : k' = k
      · subst h
        simp [dictGet, dictSet, List.find?, hp]
      · have h2 : ¬ k = k' := fun hk => h hk.symm
        have hp2 : ¬ p.1 = k' := fun hk => h2 (hp ▸ hk)
        simp [dictGet, dictSet, List.find?, hp, h, h2, hp2]
    · by_cases hpk : p.1 = k'
      · have h : ¬ k' = k := fun hk => hp (hpk.trans hk)
        simp [dictGet, dictSet, List.find?, hp, hpk, h]
      · have hset : dictSet (p :: rest) k v = p :: dictSet rest k v := by
          have hstep : dictSet (p :: rest) k v
              = if p.1 = k then (k, v) :: rest else p :: dictSet rest k v := rfl
          rw [hstep, if_neg hp]
        have hskip : ∀ X : List (String × String), dictGet (p :: X) k' = dictGet X k' := by
          intro X
          unfold dictGet
          rw [List.find?_cons_of_neg _ (by simpa using hpk)]
        rw [hset, hskip, hskip, ih]

/-- The digit characters are decimal digits. -/
lemma digitChar_isDigit (d : ℕ) (h : d < 10) : (digitChar d).isDigit = true := by
  interval_cases d
  all_goals decide

/-- A comma is not a decimal digit. -/
lemma comma_not_digit : (',' : Char).isDigit = false := by decide

/-- The two-character decimal part always has length 2 and is all
digits. -/
lemma pad2_spec (m : ℕ) (h : m < 100) :
    (pad2 m).length = 2 ∧ ∀ c ∈ pad2 m, c.isDigit = true := by
  unfold pad2
  split
  · refine ⟨rfl, ?_⟩
    intro c hc
    rcases List.mem_cons.mp hc with h1 | h1
    · subst h1
      decide
    · simp at h1
      subst h1
      exact digitChar_isDigit m (by omega)
  · refine ⟨rfl, ?_⟩
    intro c hc
    rcases List.mem_cons.mp hc with h1 | h1
    · subst h1
      exact digitChar_isDigit _ (by omega)
    · simp at h1
      subst h1
      exact digitChar_isDigit _ (Nat.mod_lt _ (by omega))

/-- Every character the digit extraction produces is a decimal digit. -/
lemma natDigitsRevFuel_digits (fuel : ℕ) :
    ∀ n, ∀ c ∈ natDigitsRevFuel fuel n, c.isDigit = true := by
  induction fuel with
  | zero =>
    intro n c hc
    simp [natDigitsRevFuel] at hc
  | succ fuel ih =>
    intro n c hc
    unfold natDigitsRevFuel at hc
    split at hc
    · simp at hc
      subst hc
      exact digitChar_isDigit n (by omega)
    · rcases List.mem_cons.mp hc with h1 | h1
      · subst h1
        exact digitChar_isDigit _ (Nat.mod_lt _ (by omega))
      · exact ih _ _ h1

/-- The digit extraction never returns an empty list. -/
lemma natDigitsRev_ne_nil (n : ℕ) : natDigitsRev n ≠ [] := by
  unfold natDigitsRev natDigitsRevFuel
  split
  all_goals simp

/-- Grouping a non-empty all-digit reversed list: commas sit exactly at the
positions congruent to 3 modulo 4, every other character is a digit, and
the result is non-empty. -/
lemma groupRevFuel_spec (fuel : ℕ) :
    ∀ ds : List Char, ds.length ≤ fuel → ds ≠ [] → (∀ c ∈ ds, c.isDigit = true) →
      (∀ i, ((groupRevFuel fuel ds)[i]? = some ',')
          ↔ (i % 4 = 3 ∧ i < (groupRevFuel fuel ds).length))
      ∧ (∀ c ∈ groupRevFuel fuel ds, c = ',' ∨ c.isDigit = true)
      ∧ groupRevFuel fuel ds ≠ [] := by
  induction fuel with
  | zero =>
    intro ds hlen hne hd
    exact absurd (List.eq_nil_of_length_eq_zero (by omega)) hne
  | succ fuel ih =>
    intro ds hlen hne hd
    unfold groupRevFuel
    split
    · refine ⟨?_, fun c hc => Or.inr (hd c hc), hne⟩
      intro i
      constructor
      · intro hi
        have hmem : (',' : Char) ∈ ds := List.getElem?_mem hi
        have := hd _ hmem
        rw [comma_not_digit] at this
        cases this
      · rintro ⟨h1, h2⟩
        omega
    · rename_i hlen3
      have hlen4 : 4 ≤ ds.length := by omega
      have hdroplen : (ds.drop 3).length ≤ fuel := by
        rw [List.length_drop]
        omega
      have hdropne : ds.drop 3 ≠ [] := by
        have : (ds.drop 3).length = ds.length - 3 := List.length_drop 3 ds
        intro hcon
        rw [hcon] at this
        simp at this
        omega
      have hdropd : ∀ c ∈ ds.drop 3, c.isDigit = true :=
        fun c hc => hd c (List.mem_of_mem_drop hc)
      obtain ⟨ihiff, ihdig, ihne⟩ := ih (ds.drop 3) hdroplen hdropne hdropd
      have htakelen : (ds.take 3).length = 3 := by
        rw [List.length_take]
        omega
      have houtlen : (ds.take 3 ++ ',' :: groupRevFuel fuel (ds.drop 3)).length
          = (groupRevFuel fuel (ds.drop 3)).length + 4 := by
        rw [List.length_append, htakelen]
        simp
        omega
      refine ⟨?_, ?_, by simp⟩
      · intro i
        rw [List.getElem?_append, htakelen, houtlen]
        rcases Nat.lt_or_ge i 3 with hi3 | hi3
        · rw [if_pos hi3]
          constructor
          · intro hi
            have hmem : (',' : Char) ∈ ds.take 3 := List.getElem?_mem hi
            have := hd _ (List.mem_of_mem_take hmem)
            rw [comma_not_digit] at this
            cases this
          · rintro ⟨h1, h2⟩
            omega
        · rw [if_neg (by omega)]
          rcases Nat.eq_or_lt_of_le hi3 with hi4 | hi4
          · rw [← hi4]
            simp
            try omega
          · have hsub : i - 3 = (i - 4) + 1 := by omega
            rw [hsub, List.getElem?_cons_succ, ihiff (i - 4)]
            constructor
            · rintro ⟨ha, hb⟩
              exact ⟨by omega, by omega⟩
            · rintro ⟨ha, hb⟩
              exact ⟨by omega, by omega⟩
      · intro c hc
        rcases List.mem_append.mp hc with h1 | h1
        · exact Or.inr (hd c (List.mem_of_mem_take h1))
        · rcases List.mem_cons.mp h1 with h2 | h2
          · exact Or.inl h2
          · exact ihdig c h2

/-- groupRev on a non-empty all-digit list: comma positions sit exactly at
the indices congruent to 3 modulo 4 and everything else is a digit. -/
lemma groupRev_spec (ds : List Char) (hne : ds ≠ []) (hd : ∀ c ∈ ds, c.isDigit = true) :
    (∀ i, ((groupRev ds)[i]? = some ',') ↔ (i % 4 = 3 ∧ i < (groupRev ds).length))
    ∧ (∀ c ∈ groupRev ds, c = ',' ∨ c.isDigit = true)
    ∧ groupRev ds ≠ [] :=
  groupRevFuel_spec ds.length ds le_rfl hne hd

/-- For a nonnegative amount the rendering is the grouped integer part, a
dot, and the two-digit cents part, with no sign. -/
lemma pyCommaFixed2_decomp (q : ℚ) (hq : 0 ≤ q) :
    pyCommaFixed2 q
      = String.mk (groupRev (natDigitsRev ((roundHalfEven (q * 100)).natAbs / 100))).reverse
        ++ "." ++ String.mk (pad2 ((roundHalfEven (q * 100)).natAbs % 100)) := by
  have hf : (0 : ℤ) ≤ (q * 100).floor := by
    rw [Rat.le_floor]
    push_cast
    exact mul_nonneg hq (by norm_num)
  have hc : 0 ≤ roundHalfEven (q * 100) := by
    unfold roundHalfEven
    dsimp only
    split
    · exact hf
    · split
      · omega
      · split
        all_goals omega
  unfold pyCommaFixed2
  dsimp only
  rw [if_neg (not_lt.mpr hc)]
  rfl

/- ## Test fixtures for concrete cycles -/

/-- A team fetch cycle in which every endpoint fails. -/
def emptyTeamFetch : TeamFetch := ⟨none, none, none, none, none, none⟩

/-- A participant JSON carrying a given donation count and blank data
otherwise. -/
def pjWithCount (n : ℤ) : PJson :=
  ⟨0, n, 0, "", "", "", "", "", "", false, 0, "", false, ""⟩

/-- A participant fetch cycle in which the scalars arrive with the given
donation count and every list endpoint returns an empty success. -/
def inpWithCount (n : ℤ) : FetchInputs :=
  ⟨some (pjWithCount n), some [], some [], some [], some [], some [], some [], some [],
   some [], emptyTeamFetch⟩

/-- A participant fetch cycle whose donor endpoint returns one donor while
the top-donors fetch fails: against an empty previous ordered donor view
this is an input on which the donor refresh raises its IndexError. -/
def inpDonorCrash : FetchInputs :=
  ⟨some (pjWithCount 1), some [], some [], some [⟨"Alice", 10⟩], none, some [],
   some [[("milestoneID", JVal.jstr "m1")]], some [], some [], emptyTeamFetch⟩

/- ## Frame lemmas for the cycle transitions -/

/-- update_participant_attributes writes only the fetched scalars and the
average; every other field is untouched, and the donation count it writes
is fetchedCount. -/
lemma update_participant_attributes_frame (s : ParticipantState) (inp : FetchInputs) :
    (update_participant_attributes s inp).my_team = s.my_team
    ∧ (update_participant_attributes s inp).team_id = s.team_id
    ∧ (update_participant_attributes s inp).first_run = s.first_run
    ∧ (update_participant_attributes s inp).new_donation = s.new_donation
    ∧ (update_participant_attributes s inp).donation_list = s.donation_list
    ∧ (update_participant_attributes s inp).ordered_donation_list = s.ordered_donation_list
    ∧ (update_participant_attributes s inp).top_donation = s.top_donation
    ∧ (update_participant_attributes s inp).donor_list = s.donor_list
    ∧ (update_participant_attributes s inp).ordered_donor_list = s.ordered_donor_list
    ∧ (update_participant_attributes s inp).top_donor = s.top_donor
    ∧ (update_participant_attributes s inp).badges = s.badges
    ∧ (update_participant_attributes s inp).milestones = s.milestones
    ∧ (update_participant_attributes s inp).incentives = s.incentives
    ∧ (update_participant_attributes s inp).activities = s.activities
    ∧ (update_participant_attributes s inp).participant_formatted_output
        = s.participant_formatted_output
    ∧ (update_participant_attributes s inp).donation_formatted_output
        = s.donation_formatted_output
    ∧ (update_participant_attributes s inp).donor_formatted_output = s.donor_formatted_output
    ∧ (update_participant_attributes s inp).top_donation_formatted_output
        = s.top_donation_formatted_output
    ∧ (update_participant_attributes s inp).top_donor_formatted_output
        = s.top_donor_formatted_output
    ∧ (update_participant_attributes s inp).currency_symbol = s.currency_symbol
    ∧ (update_participant_attributes s inp).number_of_donations = fetchedCount s inp := by
  cases hp : inp.participant
  all_goals unfold update_participant_attributes get_participant_info fetchedCount
  all_goals rw [hp]
  all_goals repeat' apply And.intro
  all_goals rfl

/-- On a failed participant fetch, update_participant_attributes keeps
every fetched scalar at its previous value. -/
lemma update_participant_attributes_fail (s : ParticipantState) (inp : FetchInputs)
    (hp : inp.participant = none) :
    (update_participant_attributes s inp).total_raised = s.total_raised
    ∧ (update_participant_attributes s inp).number_of_donations = s.number_of_donations
    ∧ (update_participant_attributes s inp).goal = s.goal
    ∧ (update_participant_attributes s inp).avatar_image_url = s.avatar_image_url
    ∧ (update_participant_attributes s inp).event_name = s.event_name
    ∧ (update_participant_attributes s inp).donation_link_url = s.donation_link_url
    ∧ (update_participant_attributes s inp).stream_url = s.stream_url
    ∧ (update_participant_attributes s inp).extra_life_page_url = s.extra_life_page_url
    ∧ (update_participant_attributes s inp).created_date_utc = s.created_date_utc
    ∧ (update_participant_attributes s inp).stream_is_live = s.stream_is_live
    ∧ (update_participant_attributes s inp).sum_pledges = s.sum_pledges
    ∧ (update_participant_attributes s inp).team_name = s.team_name
    ∧ (update_participant_attributes s inp).is_team_captain = s.is_team_captain
    ∧ (update_participant_attributes s inp).display_name = s.display_name := by
  unfold update_participant_attributes get_participant_info
  rw [hp]
  repeat' apply And.intro
  all_goals rfl

/-- update_donation_data writes only the donation list, its ordered view
and the top donation. -/
lemma update_donation_data_frame (s : ParticipantState) (inp : FetchInputs) :
    (update_donation_data s inp).my_team = s.my_team
    ∧ (update_donation_data s inp).team_id = s.team_id
    ∧ (update_donation_data s inp).first_run = s.first_run
    ∧ (update_donation_data s inp).new_donation = s.new_donation
    ∧ (update_donation_data s inp).number_of_donations = s.number_of_donations
    ∧ (update_donation_data s inp).total_raised = s.total_raised
    ∧ (update_donation_data s inp).average_donation = s.average_donation
    ∧ (update_donation_data s inp).goal = s.goal
    ∧ (update_donation_data s inp).avatar_image_url = s.avatar_image_url
    ∧ (update_donation_data s inp).event_name = s.event_name
    ∧ (update_donation_data s inp).donation_link_url = s.donation_link_url
    ∧ (update_donation_data s inp).stream_url = s.stream_url
    ∧ (update_donation_data s inp).extra_life_page_url = s.extra_life_page_url
    ∧ (update_donation_data s inp).created_date_utc = s.created_date_utc
    ∧ (update_donation_data s inp).stream_is_live = s.stream_is_live
    ∧ (update_donation_data s inp).sum_pledges = s.sum_pledges
    ∧ (update_donation_data s inp).team_name = s.team_name
    ∧ (update_donation_data s inp).is_team_captain = s.is_team_captain
    ∧ (update_donation_data s inp).display_name = s.display_name
    ∧ (update_donation_data s inp).donor_list = s.donor_list
    ∧ (update_donation_data s inp).ordered_donor_list = s.ordered_donor_list
    ∧ (update_donation_data s inp).top_donor = s.top_donor
    ∧ (update_donation_data s inp).badges = s.badges
    ∧ (update_donation_data s inp).milestones = s.milestones
    ∧ (update_donation_data s inp).incentives = s.incentives
    ∧ (update_donation_data s inp).activities = s.activities
    ∧ (update_donation_data s inp).participant_formatted_output = s.participant_formatted_output
    ∧ (update_donation_data s inp).donation_formatted_output = s.donation_formatted_output
    ∧ (update_donation_data s inp).donor_formatted_output = s.donor_formatted_output
    ∧ (update_donation_data s inp).top_donation_formatted_output
        = s.top_donation_formatted_output
    ∧ (update_donation_data s inp).top_donor_formatted_output = s.top_donor_formatted_output
    ∧ (update_donation_data s inp).currency_symbol = s.currency_symbol := by
  unfold update_donation_data
  split
  · dsimp only
    repeat' apply And.intro
    all_goals split
    all_goals rfl
  · repeat' apply And.intro
    all_goals rfl

/-- update_donor_data writes only the donor list, its ordered view and the
top donor. -/
lemma update_donor_data_frame (s : ParticipantState) (inp : FetchInputs) :
    (update_donor_data s inp).1.my_team = s.my_team
    ∧ (update_donor_data s inp).1.team_id = s.team_id
    ∧ (update_donor_data s inp).1.first_run = s.first_run
    ∧ (update_donor_data s inp).1.new_donation = s.new_donation
    ∧ (update_donor_data s inp).1.number_of_donations = s.number_of_donations
    ∧ (update_donor_data s inp).1.total_raised = s.total_raised
    ∧ (update_donor_data s inp).1.average_donation = s.average_donation
    ∧ (update_donor_data s inp).1.goal = s.goal
    ∧ (update_donor_data s inp).1.avatar_image_url = s.avatar_image_url
    ∧ (update_donor_data s inp).1.event_name = s.event_name
    ∧ (update_donor_data s inp).1.donation_link_url = s.donation_link_url
    ∧ (update_donor_data s inp).1.stream_url = s.stream_url
    ∧ (update_donor_data s inp).1.extra_life_page_url = s.extra_life_page_url
    ∧ (update_donor_data s inp).1.created_date_utc = s.created_date_utc
    ∧ (update_donor_data s inp).1.stream_is_live = s.stream_is_live
    ∧ (update_donor_data s inp).1.sum_pledges = s.sum_pledges
    ∧ (update_donor_data s inp).1.team_name = s.team_name
    ∧ (update_donor_data s inp).1.is_team_captain = s.is_team_captain
    ∧ (update_donor_data s inp).1.display_name = s.display_name
    ∧ (update_donor_data s inp).1.donation_list = s.donation_list
    ∧ (update_donor_data s inp).1.ordered_donation_list = s.ordered_donation_list
    ∧ (update_donor_data s inp).1.top_donation = s.top_donation
    ∧ (update_donor_data s inp).1.badges = s.badges
    ∧ (update_donor_data s inp).1.milestones = s.milestones
    ∧ (update_donor_data s inp).1.incentives = s.incentives
    ∧ (update_donor_data s inp).1.activities = s.activities
    ∧ (update_donor_data s inp).1.participant_formatted_output = s.participant_formatted_output
    ∧ (update_donor_data s inp).1.donation_formatted_output = s.donation_formatted_output
    ∧ (update_donor_data s inp).1.donor_formatted_output = s.donor_formatted_output
    ∧ (update_donor_data s inp).1.top_donation_formatted_output = s.top_donation_formatted_output
    ∧ (update_donor_data s inp).1.top_donor_formatted_output = s.top_donor_formatted_output
    ∧ (update_donor_data s inp).1.currency_symbol = s.currency_symbol := by
  unfold update_donor_data
  split
  · dsimp only
    split
    · repeat' apply And.intro
      all_goals rfl
    · repeat' apply And.intro
      all_goals split
      all_goals rfl
  · repeat' apply And.intro
    all_goals rfl

/-- team_api_info writes only the five scalars, the output dictionary and
the badges; the participant and donation views are untouched. -/
lemma team_api_info_frame (s : TeamState) (inp : TeamFetch) :
    (team_api_info s inp).participant_calculation_dict = s.participant_calculation_dict
    ∧ (team_api_info s inp).top_5_participant_list = s.top_5_participant_list
    ∧ (team_api_info s inp).participant_list = s.participant_list
    ∧ (team_api_info s inp).donation_list = s.donation_list
    ∧ (team_api_info s inp).donation_formatted_output = s.donation_formatted_output
    ∧ (team_api_info s inp).currency_symbol = s.currency_symbol
    ∧ (team_api_info s inp).donors_to_display = s.donors_to_display
    ∧ (team_api_info s inp).team_id = s.team_id
    ∧ (team_api_info s inp).activity_list = s.activity_list
    ∧ (team_api_info s inp).badges = get_badges inp.badges := by
  repeat' apply And.intro
  all_goals rfl

/-- participant_run writes only the two participant lists and the derived
participant calculations. -/
lemma participant_run_frame (s : TeamState) (inp : TeamFetch) :
    (participant_run s inp).team_goal = s.team_goal
    ∧ (participant_run s inp).team_captain = s.team_captain
    ∧ (participant_run s inp).total_raised = s.total_raised
    ∧ (participant_run s inp).num_donations = s.num_donations
    ∧ (participant_run s inp).team_avatar_image = s.team_avatar_image
    ∧ (participant_run s inp).team_info = s.team_info
    ∧ (participant_run s inp).badges = s.badges
    ∧ (participant_run s inp).donation_list = s.donation_list
    ∧ (participant_run s inp).donation_formatted_output = s.donation_formatted_output
    ∧ (participant_run s inp).currency_symbol = s.currency_symbol
    ∧ (participant_run s inp).donors_to_display = s.donors_to_display
    ∧ (participant_run s inp).team_id = s.team_id
    ∧ (participant_run s inp).activity_list = s.activity_list := by
  repeat' apply And.intro
  all_goals rfl

/-- donation_run writes only the donation list and (when that list is
non-empty) the formatted donation output. -/
lemma donation_run_frame (s : TeamState) (inp : TeamFetch) :
    (donation_run s inp).team_goal = s.team_goal
    ∧ (donation_run s inp).team_captain = s.team_captain
    ∧ (donation_run s inp).total_raised = s.total_raised
    ∧ (donation_run s inp).num_donations = s.num_donations
    ∧ (donation_run s inp).team_avatar_image = s.team_avatar_image
    ∧ (donation_run s inp).team_info = s.team_info
    ∧ (donation_run s inp).badges = s.badges
    ∧ (donation_run s inp).participant_calculation_dict = s.participant_calculation_dict
    ∧ (donation_run s inp).top_5_participant_list = s.top_5_participant_list
    ∧ (donation_run s inp).participant_list = s.participant_list
    ∧ (donation_run s inp).currency_symbol = s.currency_symbol
    ∧ (donation_run s inp).donors_to_display = s.donors_to_display
    ∧ (donation_run s inp).team_id = s.team_id
    ∧ (donation_run s inp).activity_list = s.activity_list := by
  unfold donation_run
  dsimp only
  repeat' apply And.intro
  all_goals split
  all_goals rfl

/-- The donor refresh raises exactly when its count is positive, the
refreshed donor list is non-empty, and the fetched ordered view is
empty. -/
lemma update_donor_data_snd (x : ParticipantState) (inp : FetchInputs) :
    (update_donor_data x inp).2
      = (decide (0 < x.number_of_donations)
         && !(get_donations x.ordered_donor_list inp.donors).isEmpty
         && (get_donations x.ordered_donor_list inp.topDonors).isEmpty) := by
  unfold update_donor_data
  split
  · rename_i h
    dsimp only
    split
    · rename_i hdl
      simp [h, hdl]
    · rename_i hdl
      split
      · rename_i d rest hodl
        simp [h, hdl, hodl]
      · rename_i hodl
        simp [h, hdl, hodl]
  · rename_i h
    simp [h]

/-- How one run cycle leaves the new-donation flag: unchanged, except that
a non-first cycle whose refreshed donation count exceeds the snapshot sets
it to true.  Nothing in run ever writes false to it. -/
lemma run_new_donation_eq (s : ParticipantState) (inp : FetchInputs) :
    (run s inp).1.new_donation
      = (s.new_donation
          || (!s.first_run && decide (s.number_of_donations < fetchedCount s inp))) := by
  unfold run
  cases hfr : s.first_run <;> cases hmt : s.my_team <;>
    by_cases hlt : s.number_of_donations < fetchedCount s inp <;>
      simp [update_incentives, update_activities, p_update_badges, update_milestones,
        run_team_block, update_donation_data_frame, update_donor_data_frame,
        update_participant_attributes_frame, hfr, hmt, hlt] <;>
      try split
  all_goals simp [update_incentives, update_activities, p_update_badges, update_milestones,
    run_team_block, update_donation_data_frame, update_donor_data_frame,
    update_participant_attributes_frame, hfr, hmt, hlt] <;> try split
  all_goals simp [update_donation_data_frame, update_donor_data_frame,
    update_participant_attributes_frame, hfr, hmt, hlt]

/-- With a positive donation count, update_donation_data replaces the
donation list and its ordered view with the fetch results. -/
lemma update_donation_data_pos (x : ParticipantState) (inp : FetchInputs)
    (h : 0 < x.number_of_donations) :
    (update_donation_data x inp).donation_list = get_donations x.donation_list inp.donations
    ∧ (update_donation_data x inp).ordered_donation_list
        = get_donations x.ordered_donation_list inp.topDonations := by
  unfold update_donation_data
  rw [if_pos h]
  dsimp only
  constructor
  all_goals split
  all_goals rfl

/-- Without a positive donation count, update_donation_data is the
identity. -/
lemma update_donation_data_zero (x : ParticipantState) (inp : FetchInputs)
    (h : ¬ 0 < x.number_of_donations) :
    update_donation_data x inp = x := by
  unfold update_donation_data
  rw [if_neg h]

/-- With a positive donation count, update_donor_data replaces the donor
list with the fetch result (the source passes its ordered donor list to
comms as the previous value). -/
lemma update_donor_data_pos (x : ParticipantState) (inp : FetchInputs)
    (h : 0 < x.number_of_donations) :
    (update_donor_data x inp).1.donor_list = get_donations x.ordered_donor_list inp.donors := by
  unfold update_donor_data
  rw [if_pos h]
  dsimp only
  split
  · rfl
  · split
    all_goals rfl

/-- Without a positive donation count, update_donor_data is the
identity. -/
lemma update_donor_data_zero (x : ParticipantState) (inp : FetchInputs)
    (h : ¬ 0 < x.number_of_donations) :
    update_donor_data x inp = (x, false) := by
  unfold update_donor_data
  rw [if_neg h]

/-- The donor refresh raises the IndexError exactly when the refreshed
donor list is non-empty while the fetched ordered view is empty; the
mutations made before the raise survive on the state. -/
lemma update_donor_data_crash (x : ParticipantState) (inp : FetchInputs)
    (h : 0 < x.number_of_donations)
    (hdl : (get_donations x.ordered_donor_list inp.donors).isEmpty = false)
    (hodl : get_donations x.ordered_donor_list inp.topDonors = []) :
    update_donor_data x inp
      = ({ x with donor_list := get_donations x.ordered_donor_list inp.donors,
                  ordered_donor_list := [] }, true) := by
  unfold update_donor_data
  rw [if_pos h]
  dsimp only
  rw [hdl]
  rw [if_neg (by simp : ¬ (false = true))]
  rw [hodl]

/-- The fields run refreshes unconditionally (scalars, incentives,
activities, the first-run flag), and the formatted output mappings it never
touches at all. -/
lemma run_uncond (s : ParticipantState) (inp : FetchInputs) :
    (run s inp).1.number_of_donations = fetchedCount s inp
    ∧ (run s inp).1.total_raised = (update_participant_attributes s inp).total_raised
    ∧ (run s inp).1.goal = (update_participant_attributes s inp).goal
    ∧ (run s inp).1.average_donation = (update_participant_attributes s inp).average_donation
    ∧ (run s inp).1.incentives = (get_json_list inp.incentives).map create_incentive
    ∧ (run s inp).1.activities = (get_json_list inp.activities).map create_activity
    ∧ (run s inp).1.first_run = ((run s inp).2 && s.first_run)
    ∧ (run s inp).1.donation_formatted_output = s.donation_formatted_output
    ∧ (run s inp).1.donor_formatted_output = s.donor_formatted_output
    ∧ (run s inp).1.top_donation_formatted_output = s.top_donation_formatted_output
    ∧ (run s inp).1.top_donor_formatted_output = s.top_donor_formatted_output
    ∧ (run s inp).1.participant_formatted_output = s.participant_formatted_output
    ∧ (run s inp).1.team_id = s.team_id
    ∧ (run s inp).1.avatar_image_url = (update_participant_attributes s inp).avatar_image_url
    ∧ (run s inp).1.event_name = (update_participant_attributes s inp).event_name
    ∧ (run s inp).1.donation_link_url = (update_participant_attributes s inp).donation_link_url
    ∧ (run s inp).1.stream_url = (update_participant_attributes s inp).stream_url
    ∧ (run s inp).1.extra_life_page_url
        = (update_participant_attributes s inp).extra_life_page_url
    ∧ (run s inp).1.created_date_utc = (update_participant_attributes s inp).created_date_utc
    ∧ (run s inp).1.stream_is_live = (update_participant_attributes s inp).stream_is_live
    ∧ (run s inp).1.sum_pledges = (update_participant_attributes s inp).sum_pledges
    ∧ (run s inp).1.team_name = (update_participant_attributes s inp).team_name
    ∧ (run s inp).1.is_team_captain = (update_participant_attributes s inp).is_team_captain
    ∧ (run s inp).1.display_name = (update_participant_attributes s inp).display_name := by
  unfold run
  cases hfr : s.first_run <;> cases hmt : s.my_team <;>
    by_cases hlt : s.number_of_donations < fetchedCount s inp <;>
      simp [update_incentives, update_activities, p_update_badges, update_milestones,
        run_team_block, update_donation_data_frame, update_donor_data_frame,
        update_participant_attributes_frame, hfr, hmt, hlt] <;>
      try split
  all_goals simp [update_donation_data_frame, update_donor_data_frame,
    update_participant_attributes_frame, update_incentives, update_activities,
    p_update_badges, update_milestones, run_team_block, hfr, hmt, hlt] <;> try split
  all_goals simp [update_donation_data_frame, update_donor_data_frame,
    update_participant_attributes_frame, update_incentives, update_activities,
    p_update_badges, update_milestones, hfr, hmt, hlt]

/-- When the cycle is not the first and the refreshed donation count does
not exceed the snapshot, run leaves the donation, donor, badge and
milestone data untouched. -/
lemma run_gate_closed (s : ParticipantState) (inp : FetchInputs)
    (hfr : s.first_run = false)
    (hlt : ¬ s.number_of_donations < fetchedCount s inp) :
    (run s inp).1.donation_list = s.donation_list
    ∧ (run s inp).1.ordered_donation_list = s.ordered_donation_list
    ∧ (run s inp).1.top_donation = s.top_donation
    ∧ (run s inp).1.donor_list = s.donor_list
    ∧ (run s inp).1.ordered_donor_list = s.ordered_donor_list
    ∧ (run s inp).1.top_donor = s.top_donor
    ∧ (run s inp).1.badges = s.badges
    ∧ (run s inp).1.milestones = s.milestones
    ∧ (run s inp).2 = false := by
  unfold run
  cases hmt : s.my_team <;>
    simp [update_incentives, update_activities, run_team_block,
      update_participant_attributes_frame, hfr, hmt, hlt] <;>
    try split
  all_goals simp [update_participant_attributes_frame, update_incentives, update_activities,
    run_team_block, hfr, hmt, hlt]

/-- When the gate is open (first cycle, or the refreshed count exceeds the
snapshot), run refreshes the badge and milestone data from the fetches. -/
lemma run_gate_open_main (s : ParticipantState) (inp : FetchInputs)
    (h : s.first_run = true ∨ s.number_of_donations < fetchedCount s inp)
    (hok : (run s inp).2 = false) :
    (run s inp).1.milestones = (get_json_list inp.milestones).map create_milestone
    ∧ (run s inp).1.badges = get_badges inp.badges := by
  unfold run at hok ⊢
  rcases h with hfr | hlt
  · cases hmt : s.my_team <;>
      simp [update_incentives, update_activities, p_update_badges, update_milestones,
        run_team_block, apply_ite, update_donation_data_frame, update_donor_data_frame,
        update_participant_attributes_frame, hfr, hmt] at hok ⊢ <;>
      simp [hok]
  · cases hfr : s.first_run <;> cases hmt : s.my_team <;>
      simp [update_incentives, update_activities, p_update_badges, update_milestones,
        run_team_block, apply_ite, update_donation_data_frame, update_donor_data_frame,
        update_participant_attributes_frame, hfr, hmt, hlt] at hok ⊢ <;>
      simp [hok]

/-- When the gate is open and the refreshed donation count is positive,
run replaces the donation and donor lists with the fetch results. -/
lemma run_gate_open_pos (s : ParticipantState) (inp : FetchInputs)
    (h : s.first_run = true ∨ s.number_of_donations < fetchedCount s inp)
    (hok : (run s inp).2 = false)
    (hpos : 0 < fetchedCount s inp) :
    (run s inp).1.donation_list = get_donations s.donation_list inp.donations
    ∧ (run s inp).1.ordered_donation_list
        = get_donations s.ordered_donation_list inp.topDonations
    ∧ (run s inp).1.donor_list = get_donations s.ordered_donor_list inp.donors := by
  unfold run at hok ⊢
  rcases h with hfr | hlt
  · cases hmt : s.my_team <;>
      simp [update_incentives, update_activities, p_update_badges, update_milestones,
        run_team_block, apply_ite, update_donation_data_frame, update_donor_data_frame,
        update_donation_data_pos, update_donor_data_pos,
        update_participant_attributes_frame, hfr, hmt, hpos] at hok ⊢ <;>
      simp [hok]
  · cases hfr : s.first_run <;> cases hmt : s.my_team <;>
      simp [update_incentives, update_activities, p_update_badges, update_milestones,
        run_team_block, apply_ite, update_donation_data_frame, update_donor_data_frame,
        update_donation_data_pos, update_donor_data_pos,
        update_participant_attributes_frame, hfr, hmt, hlt, hpos] at hok ⊢ <;>
      simp [hok]

/-- run hands the cycle to the owned team exactly when the configured team
id is truthy. -/
lemma run_team (s : ParticipantState) (inp : FetchInputs) :
    ((run s inp).2 = false → pyTruthyStr s.team_id = true → ∀ t, s.my_team = some t →
      (run s inp).1.my_team = some (team_run t inp.team))
    ∧ (pyTruthyStr s.team_id = false → (run s inp).1.my_team = s.my_team) := by
  constructor
  · intro hok htid t hmt
    unfold run at hok ⊢
    cases hfr : s.first_run <;>
      by_cases hlt : s.number_of_donations < fetchedCount s inp <;>
        simp [update_incentives, update_activities, p_update_badges, update_milestones,
          run_team_block, apply_ite, update_donation_data_frame, update_donor_data_frame,
          update_participant_attributes_frame, hfr, hmt, hlt, htid] at hok ⊢ <;>
        simp [hok]
  · intro htid
    unfold run
    cases hfr : s.first_run <;> cases hmt : s.my_team <;>
      by_cases hlt : s.number_of_donations < fetchedCount s inp <;>
        simp [update_incentives, update_activities, p_update_badges, update_milestones,
          run_team_block, apply_ite, update_donation_data_frame, update_donor_data_frame,
          update_participant_attributes_frame, hfr, hmt, hlt, htid]

/- ## Theorems about the claims -/

/-- C1: the claim says a JSON type tag equal to "donation" yields a
Donation-variant activity exposing the amount, "participantBadge" or
"teamBadge" yield a Badge-variant, and every other tag (e.g.
"somethingElse") yields a Generic activity.  The code's Badge branch tests
`type == "participantBadge" or "teamBadge"`, whose right operand is an
always-truthy string literal, so the tag "somethingElse" in fact yields a
Badge-variant activity and never reaches the Generic branch: this theorem
evaluates create_activity at that failing input. -/
theorem create_activity_unknown_tag_yields_badge :
    create_activity [("type", JVal.jstr "somethingElse")]
      = Activity.badgeAct ⟨none, none, some (JVal.jstr "somethingElse")⟩ none none
    ∧ (create_activity [("type", JVal.jstr "somethingElse")]).isGenericActivity = false
    ∧ (create_activity [("type", JVal.jstr "donation"), ("amount", JVal.jnum 25)]).activityAmount
        = some (JVal.jnum 25)
    ∧ (create_activity [("type", JVal.jstr "participantBadge")]).isBadgeActivity = true := by
  exact ⟨rfl, rfl, rfl, rfl⟩

/-- C3: the average-donation computation returns total_raised divided by
number_of_donations when the count is positive and 0 when the count is
zero, never raising a division error (the function is total by
construction). -/
theorem calculate_average_donation_spec (total_raised : ℚ) (number_of_donations : ℤ) :
    (0 < number_of_donations →
      calculate_average_donation total_raised number_of_donations
        = total_raised / (number_of_donations : ℚ))
    ∧ (number_of_donations = 0 →
      calculate_average_donation total_raised number_of_donations = 0) := by
  constructor
  · intro h
    rw [calculate_average_donation, if_neg (by omega)]
  · intro h
    rw [calculate_average_donation, if_pos h]

/-- Witness for C3 at the concrete inputs of the claim:
average(150, 3) = 50 and average(0, 0) = 0. -/
theorem calculate_average_donation_spec_witness :
    calculate_average_donation 150 3 = 50 ∧ calculate_average_donation 0 0 = 0 := by
  constructor
  · rw [(calculate_average_donation_spec 150 3).1 (by norm_num)]
    norm_num
  · exact (calculate_average_donation_spec 0 0).2 rfl

/-- C2 counterexample: the claim says new_donation is true iff the most
recent run call was not the first cycle and observed a strictly increased
donation count.  In the code the flag is set but never cleared by run:
after a first cycle at count 0, a second cycle at count 1 (flag set), a
third cycle whose count 1 equals the snapshot leaves the flag true, while
the claim requires false there (the third cycle is not the first and its
count did not increase). -/
theorem new_donation_persists_counterexample :
    (run (run (run (initParticipantState "478153" "$" "" 5) (inpWithCount 0)).1
        (inpWithCount 1)).1 (inpWithCount 1)).1.new_donation = true
    ∧ (run (run (initParticipantState "478153" "$" "" 5) (inpWithCount 0)).1
        (inpWithCount 1)).1.number_of_donations = 1
    ∧ fetchedCount (run (run (initParticipantState "478153" "$" "" 5) (inpWithCount 0)).1
        (inpWithCount 1)).1 (inpWithCount 1) = 1
    ∧ (run (run (initParticipantState "478153" "$" "" 5) (inpWithCount 0)).1
        (inpWithCount 1)).1.first_run = false := by
  exact ⟨rfl, rfl, rfl, rfl⟩

/-- C2 amended: after a run call the new_donation flag is true iff it was
already true before the call, or the call was not the first cycle and its
refreshed donation count strictly exceeds the count snapshotted at the
start of the call; a cycle with an unchanged count leaves the flag
unchanged (run never writes false to it; only the public setter can clear
it). -/
theorem run_new_donation_flag (s : ParticipantState) (inp : FetchInputs) :
    (run s inp).1.new_donation
      = (s.new_donation
          || (!s.first_run && decide (s.number_of_donations < fetchedCount s inp))) :=
  run_new_donation_eq s inp

/-- C10: once run has set new_donation to true, no later run call clears
it - the flag is monotone across run cycles - and the public setter is the
write that can clear it from outside the cycle. -/
theorem run_new_donation_monotone (s : ParticipantState) (inp : FetchInputs)
    (h : s.new_donation = true) :
    (run s inp).1.new_donation = true ∧ ∀ b, (set_new_donation s b).new_donation = b := by
  constructor
  · rw [run_new_donation_eq, h, Bool.true_or]
  · intro b
    rfl

/-- Witness for C10: a state whose flag was set (via the setter) keeps it
through a further run cycle. -/
theorem run_new_donation_monotone_witness :
    (run (set_new_donation (initParticipantState "478153" "$" "" 5) true)
        (inpWithCount 0)).1.new_donation = true
    ∧ (set_new_donation (set_new_donation (initParticipantState "478153" "$" "" 5) true)
        false).new_donation = false :=
  ⟨(run_new_donation_monotone (set_new_donation (initParticipantState "478153" "$" "" 5) true)
      (inpWithCount 0) rfl).1,
   (run_new_donation_monotone (set_new_donation (initParticipantState "478153" "$" "" 5) true)
      (inpWithCount 0) rfl).2 false⟩

/-- C8: each record builder substitutes the documented default for an
absent optional field (false for isComplete, empty mapping for links, empty
string for the date and image fields, zero for the quantities) and yields
an unset (none) value for an absent required field, returning a record in
every case. -/
theorem record_builders_tolerate_missing_fields (j : Json) :
    ((jget j "isComplete" = none → (create_milestone j).is_complete = JVal.jbool false)
      ∧ (jget j "links" = none → (create_milestone j).links = JVal.jobj [])
      ∧ (jget j "endDateUTC" = none → (create_milestone j).end_date_utc = JVal.jstr "")
      ∧ (jget j "startDateUTC" = none → (create_milestone j).start_date_utc = JVal.jstr "")
      ∧ (jget j "description" = none → (create_milestone j).description = none)
      ∧ (jget j "fundraisingGoal" = none → (create_milestone j).fundraising_goal = none)
      ∧ (jget j "isActive" = none → (create_milestone j).is_active = none)
      ∧ (jget j "milestoneID" = none → (create_milestone j).milestone_id = none))
    ∧ ((jget j "endDateUTC" = none → (create_incentive j).end_date_utc = JVal.jstr "")
      ∧ (jget j "incentiveImageURL" = none →
          (create_incentive j).incentive_image_url = JVal.jstr "")
      ∧ (jget j "links" = none → (create_incentive j).links = JVal.jobj [])
      ∧ (jget j "startDateUTC" = none → (create_incentive j).start_date_utc = JVal.jstr "")
      ∧ (jget j "quantity" = none → (create_incentive j).quantity = JVal.jnum 0)
      ∧ (jget j "quantityClaimed" = none → (create_incentive j).quantity_claimed = JVal.jnum 0)
      ∧ (jget j "amount" = none → (create_incentive j).amount = none)
      ∧ (jget j "description" = none → (create_incentive j).description = none)
      ∧ (jget j "incentiveID" = none → (create_incentive j).incentive_id = none)
      ∧ (jget j "isActive" = none → (create_incentive j).is_active = none))
    ∧ ((jget j "fundraisingGoal" = none → (create_team_group j).fundraising_goal = none)
      ∧ (jget j "groupCode" = none → (create_team_group j).group_code = none)
      ∧ (jget j "name" = none → (create_team_group j).name = none)
      ∧ (jget j "numDonations" = none → (create_team_group j).number_of_donations = none)
      ∧ (jget j "numParticipants" = none → (create_team_group j).number_of_participants = none)
      ∧ (jget j "numTeams" = none → (create_team_group j).number_of_teams = none)
      ∧ (jget j "sumDonations" = none → (create_team_group j).sum_of_donations = none)) := by
  repeat' constructor
  all_goals intro h
  all_goals simp [create_milestone, create_incentive, create_team_group, jgetD, h]

/-- Witness for C8 at the empty JSON object, where every field is absent:
the defaults appear and the required fields are unset. -/
theorem record_builders_tolerate_missing_fields_witness :
    (create_milestone []).is_complete = JVal.jbool false
    ∧ (create_milestone []).description = none
    ∧ (create_incentive []).quantity = JVal.jnum 0
    ∧ (create_incentive []).amount = none
    ∧ (create_team_group []).name = none := by
  obtain ⟨hm, hi, ht⟩ := record_builders_tolerate_missing_fields []
  exact ⟨hm.1 rfl, hm.2.2.2.2.1 rfl, hi.2.2.2.2.1 rfl, hi.2.2.2.2.2.2.1 rfl, ht.2.2.1 rfl⟩

/-- C4: team_run refreshes the team scalars (goal, captain, total raised,
donation count, avatar), the output dictionary and the badge list
unconditionally, while the recent and top-5 participant lists, the
participant calculations, the donation list and the formatted donation
output are refreshed only when the newly fetched donation count strictly
exceeds the previous cycle's count; when it does not, those fields are left
exactly equal to their previous values. -/
theorem team_run_gating (s : TeamState) (inp : TeamFetch) :
    ((team_run s inp).team_goal = (team_api_info s inp).team_goal
      ∧ (team_run s inp).team_captain = (team_api_info s inp).team_captain
      ∧ (team_run s inp).total_raised = (team_api_info s inp).total_raised
      ∧ (team_run s inp).num_donations = (team_api_info s inp).num_donations
      ∧ (team_run s inp).team_avatar_image = (team_api_info s inp).team_avatar_image
      ∧ (team_run s inp).team_info = (team_api_info s inp).team_info
      ∧ (team_run s inp).badges = get_badges inp.badges)
    ∧ (¬ s.num_donations < (team_api_info s inp).num_donations →
        (team_run s inp).participant_list = s.participant_list
        ∧ (team_run s inp).top_5_participant_list = s.top_5_participant_list
        ∧ (team_run s inp).participant_calculation_dict = s.participant_calculation_dict
        ∧ (team_run s inp).donation_list = s.donation_list
        ∧ (team_run s inp).donation_formatted_output = s.donation_formatted_output)
    ∧ (s.num_donations < (team_api_info s inp).num_donations →
        team_run s inp = donation_run (participant_run (team_api_info s inp) inp) inp) := by
  refine ⟨?_, ?_, ?_⟩
  · unfold team_run
    dsimp only
    split
    · simp [donation_run_frame, participant_run_frame, team_api_info_frame]
    · simp [team_api_info_frame]
  · intro h
    unfold team_run
    dsimp only
    split
    · exact absurd (by assumption) h
    · exact ⟨(team_api_info_frame s inp).2.2.1, (team_api_info_frame s inp).2.1,
        (team_api_info_frame s inp).1, (team_api_info_frame s inp).2.2.2.1,
        (team_api_info_frame s inp).2.2.2.2.1⟩
  · intro h
    unfold team_run
    dsimp only
    split
    · rfl
    · exact absurd h (by assumption)

/-- Witness for C4 at a concrete team state and a cycle whose team JSON
fetch fails, so the refreshed count equals the previous count and the
participant and donation views keep their previous values while the badges
are still refreshed. -/
theorem team_run_gating_witness :
    (team_run (initTeamState "44013" "$" 5) emptyTeamFetch).donation_formatted_output
      = (initTeamState "44013" "$" 5).donation_formatted_output
    ∧ (team_run (initTeamState "44013" "$" 5) emptyTeamFetch).participant_list
      = (initTeamState "44013" "$" 5).participant_list := by
  have h := (team_run_gating (initTeamState "44013" "$" 5) emptyTeamFetch).2.1 (by decide)
  exact ⟨h.2.2.2.2, h.1⟩

/-- C5 counterexample: the claim promises that on every run call the
gate-open refreshes of badge and milestone data happen and that a
configured team's cycle is then invoked.  On a first cycle whose donor
endpoint returns a donor while the top-donors fetch fails against the
empty initial ordered donor view, the unguarded element-0 read
(participant.py line 399) raises an IndexError that aborts the cycle: the
fetched milestone is never stored, the owned team's cycle is never invoked
(team_run would have filled its four-entry output dictionary), and the
first-run transition never happens. -/
theorem donor_index_error_aborts_counterexample :
    (run (initParticipantState "478153" "$" "44013" 5) inpDonorCrash).2 = true
    ∧ ((get_json_list inpDonorCrash.milestones).map create_milestone).length = 1
    ∧ (run (initParticipantState "478153" "$" "44013" 5) inpDonorCrash).1.milestones = []
    ∧ (run (initParticipantState "478153" "$" "44013" 5) inpDonorCrash).1.my_team
        = some (initTeamState "44013" "$" 5)
    ∧ (team_run (initTeamState "44013" "$" 5) emptyTeamFetch).team_info.length = 4
    ∧ (initTeamState "44013" "$" 5).team_info.length = 0
    ∧ (run (initParticipantState "478153" "$" "44013" 5) inpDonorCrash).1.first_run
        = true := by
  exact ⟨rfl, rfl, rfl, rfl, rfl, rfl, rfl⟩

/-- C5 amended: run fetches the participant scalars (donation count, total
raised, goal, recomputed average), the incentives and the activities
unconditionally; when the cycle is not the first and the count did not
increase, the donation, donor, badge and milestone data keep their
previous-cycle values and the cycle cannot raise; and provided the donor
refresh does not raise its IndexError (participant.py line 399), an open
gate refreshes the badge and milestone data (and, with a positive count,
the donation and donor lists) and the configured team's cycle team_run is
then invoked. -/
theorem participant_run_gating (s : ParticipantState) (inp : FetchInputs) :
    ((run s inp).1.number_of_donations = fetchedCount s inp
      ∧ (run s inp).1.total_raised = (update_participant_attributes s inp).total_raised
      ∧ (run s inp).1.goal = (update_participant_attributes s inp).goal
      ∧ (run s inp).1.average_donation = (update_participant_attributes s inp).average_donation
      ∧ (run s inp).1.incentives = (get_json_list inp.incentives).map create_incentive
      ∧ (run s inp).1.activities = (get_json_list inp.activities).map create_activity)
    ∧ (s.first_run = false → ¬ s.number_of_donations < fetchedCount s inp →
        (run s inp).1.donation_list = s.donation_list
        ∧ (run s inp).1.ordered_donation_list = s.ordered_donation_list
        ∧ (run s inp).1.top_donation = s.top_donation
        ∧ (run s inp).1.donor_list = s.donor_list
        ∧ (run s inp).1.ordered_donor_list = s.ordered_donor_list
        ∧ (run s inp).1.top_donor = s.top_donor
        ∧ (run s inp).1.badges = s.badges
        ∧ (run s inp).1.milestones = s.milestones
        ∧ (run s inp).2 = false)
    ∧ ((run s inp).2 = false →
        s.first_run = true ∨ s.number_of_donations < fetchedCount s inp →
        (run s inp).1.milestones = (get_json_list inp.milestones).map create_milestone
        ∧ (run s inp).1.badges = get_badges inp.badges
        ∧ (0 < fetchedCount s inp →
            (run s inp).1.donation_list = get_donations s.donation_list inp.donations
            ∧ (run s inp).1.ordered_donation_list
                = get_donations s.ordered_donation_list inp.topDonations
            ∧ (run s inp).1.donor_list = get_donations s.ordered_donor_list inp.donors))
    ∧ ((run s inp).2 = false → pyTruthyStr s.team_id = true → ∀ t, s.my_team = some t →
        (run s inp).1.my_team = some (team_run t inp.team)) := by
  refine ⟨?_, ?_, ?_, (run_team s inp).1⟩
  · have h := run_uncond s inp
    exact ⟨h.1, h.2.1, h.2.2.1, h.2.2.2.1, h.2.2.2.2.1, h.2.2.2.2.2.1⟩
  · intro hfr hlt
    exact run_gate_closed s inp hfr hlt
  · intro hok h
    exact ⟨(run_gate_open_main s inp h hok).1, (run_gate_open_main s inp h hok).2,
      fun hpos => run_gate_open_pos s inp h hok hpos⟩

/-- Witness for C5: after a first cycle at donation count 1 with a
configured team, a second cycle whose count is unchanged keeps the
milestone list, and the first (crash-free) cycle hands the cycle to the
configured team. -/
theorem participant_run_gating_witness :
    (run (run (initParticipantState "478153" "$" "44013" 5) (inpWithCount 1)).1
        (inpWithCount 1)).1.milestones
      = (run (initParticipantState "478153" "$" "44013" 5) (inpWithCount 1)).1.milestones
    ∧ (run (initParticipantState "478153" "$" "44013" 5) (inpWithCount 1)).1.my_team
      = some (team_run (initTeamState "44013" "$" 5) emptyTeamFetch) := by
  constructor
  · exact ((participant_run_gating (run (initParticipantState "478153" "$" "44013" 5)
      (inpWithCount 1)).1 (inpWithCount 1)).2.1 rfl (by decide)).2.2.2.2.2.2.2.1
  · exact (participant_run_gating (initParticipantState "478153" "$" "44013" 5)
      (inpWithCount 1)).2.2.2 rfl rfl (initTeamState "44013" "$" 5) rfl

/-- C9: the empty-collection edge cases are handled without error and with
the documented placeholders: with no donations yet the donation and donor
formatted-output mappings keep the placeholder strings written by __init__
(run never touches those mappings at all), an empty top-5 team participant
list renders as the string "No participants.", and a successfully fetched
but empty donor list (anonymous donors) leaves the ordered donor view and
the top donor at their previous values. -/
theorem empty_collection_edge_cases (donor_drive_id currency_symbol team_id : String)
    (donors_to_display : ℕ) (s : ParticipantState) (inp : FetchInputs) (t : TeamState) :
    ((initParticipantState donor_drive_id currency_symbol team_id
          donors_to_display).donation_formatted_output
      = [("LastDonationNameAmnt", "No Donations Yet"),
         ("lastNDonationNameAmts", "No Donations Yet"),
         ("lastNDonationNameAmtsMessage", "No Donations Yet"),
         ("lastNDonationNameAmtsMessageHorizontal", "No Donations Yet"),
         ("lastNDonationNameAmtsHorizontal", "No Donations Yet")]
      ∧ (initParticipantState donor_drive_id currency_symbol team_id
            donors_to_display).donor_formatted_output
        = [("LastDonorNameAmnt", "No Donations Yet"),
           ("lastNDonorNameAmts", "No Donations Yet"),
           ("lastNDonorNameAmtsMessage", "No Donations Yet"),
           ("lastNDonorNameAmtsMessageHorizontal", "No Donations Yet"),
           ("lastNDonorNameAmtsHorizontal", "No Donations Yet")]
      ∧ (initParticipantState donor_drive_id currency_symbol team_id
            donors_to_display).top_donor_formatted_output
        = [("TopDonorNameAmnt", "No Donors Yet")]
      ∧ (initParticipantState donor_drive_id currency_symbol team_id
            donors_to_display).top_donation_formatted_output
        = [("TopDonationNameAmnt", "No Donations Yet")]
      ∧ (run s inp).1.donation_formatted_output = s.donation_formatted_output
      ∧ (run s inp).1.donor_formatted_output = s.donor_formatted_output)
    ∧ (t.top_5_participant_list = [] → top_participant t = "No participants.")
    ∧ (0 < s.number_of_donations → inp.donors = some [] →
        (update_donor_data s inp).1.donor_list = []
        ∧ (update_donor_data s inp).1.top_donor = s.top_donor
        ∧ (update_donor_data s inp).1.ordered_donor_list = s.ordered_donor_list
        ∧ (update_donor_data s inp).2 = false) := by
  refine ⟨⟨rfl, rfl, rfl, rfl, (run_uncond s inp).2.2.2.2.2.2.2.1,
    (run_uncond s inp).2.2.2.2.2.2.2.2.1⟩, ?_, ?_⟩
  · intro h
    simp [top_participant, h]
  · intro hpos hdon
    unfold update_donor_data
    rw [if_pos hpos]
    dsimp only
    rw [hdon]
    simp [get_donations]

/-- Witness for C9: the placeholder appears for an empty top-5 list, and a
state one cycle in (donation count 1) given an empty donor fetch keeps its
top donor. -/
theorem empty_collection_edge_cases_witness :
    top_participant (initTeamState "44013" "$" 5) = "No participants."
    ∧ (update_donor_data (run (initParticipantState "478153" "$" "" 5) (inpWithCount 1)).1
        (inpWithCount 1)).1.top_donor
      = (run (initParticipantState "478153" "$" "" 5) (inpWithCount 1)).1.top_donor := by
  constructor
  · exact (empty_collection_edge_cases "478153" "$" "" 5
      (initParticipantState "478153" "$" "" 5) (inpWithCount 1)
      (initTeamState "44013" "$" 5)).2.1 rfl
  · exact ((empty_collection_edge_cases "478153" "$" "" 5
      (run (initParticipantState "478153" "$" "" 5) (inpWithCount 1)).1 (inpWithCount 1)
      (initTeamState "44013" "$" 5)).2.2 (by decide) rfl).2.1

/-- C6 counterexample: the claim says every failing fetch leaves the
corresponding fields at their previous-cycle values, naming the milestone
fetch among them.  In the code _update_milestones iterates the fetch result
unconditionally, so after a first cycle that stored one milestone, a second
cycle (count 1 to 2, gate open) whose milestone fetch fails replaces the
milestone list with the empty list instead of retaining it. -/
theorem milestone_fetch_failure_clears_counterexample :
    (run (initParticipantState "478153" "$" "" 5)
        { inpWithCount 1 with
            milestones := some [[("milestoneID", JVal.jstr "m1")]] }).1.milestones.length = 1
    ∧ (run (run (initParticipantState "478153" "$" "" 5)
          { inpWithCount 1 with milestones := some [[("milestoneID", JVal.jstr "m1")]] }).1
        { inpWithCount 2 with milestones := none }).1.milestones = [] := by
  exact ⟨rfl, rfl⟩

/-- C6 amended: on a fetch failure the fields whose previous values reach
the fetch helper or whose caller checks the falsy result are retained, with
a warning logged: the fourteen participant scalars, the five team scalars,
the team participant lists, and the donation and donor lists.  Provided
the cycle does not abort, the milestone, incentive and activity fetches
instead iterate the falsy failure result directly, replacing those lists
with the empty list, and the badge fetch likewise yields an empty list.
One failure is fatal to the cycle: a failing (or empty) top-donors fetch
that leaves the ordered donor view empty while the refreshed donor list is
non-empty raises an uncaught IndexError (participant.py line 399) that
propagates out of run, preempting the badge, milestone and team updates. -/
theorem fetch_failure_semantics (s : ParticipantState) (inp : FetchInputs) (t : TeamState)
    (tinp : TeamFetch) :
    (inp.participant = none →
      (run s inp).1.total_raised = s.total_raised
      ∧ (run s inp).1.number_of_donations = s.number_of_donations
      ∧ (run s inp).1.goal = s.goal
      ∧ (run s inp).1.avatar_image_url = s.avatar_image_url
      ∧ (run s inp).1.event_name = s.event_name
      ∧ (run s inp).1.donation_link_url = s.donation_link_url
      ∧ (run s inp).1.stream_url = s.stream_url
      ∧ (run s inp).1.extra_life_page_url = s.extra_life_page_url
      ∧ (run s inp).1.created_date_utc = s.created_date_utc
      ∧ (run s inp).1.stream_is_live = s.stream_is_live
      ∧ (run s inp).1.sum_pledges = s.sum_pledges
      ∧ (run s inp).1.team_name = s.team_name
      ∧ (run s inp).1.is_team_captain = s.is_team_captain
      ∧ (run s inp).1.display_name = s.display_name
      ∧ (run_warnings s inp).head? = some "Couldn't access participant JSON.")
    ∧ (tinp.teamJson = none →
        (team_run t tinp).team_goal = t.team_goal
        ∧ (team_run t tinp).team_captain = t.team_captain
        ∧ (team_run t tinp).total_raised = t.total_raised
        ∧ (team_run t tinp).num_donations = t.num_donations
        ∧ (team_run t tinp).team_avatar_image = t.team_avatar_image
        ∧ (team_run_warnings t tinp).head? = some "Could not get team JSON")
    ∧ (get_participants t true none = t.top_5_participant_list
        ∧ get_participants t false none = t.participant_list)
    ∧ (∀ prev : List Donation, get_donations prev none = prev)
    ∧ (inp.incentives = none → (run s inp).1.incentives = [])
    ∧ (inp.activities = none → (run s inp).1.activities = [])
    ∧ ((run s inp).2 = false →
        s.first_run = true ∨ s.number_of_donations < fetchedCount s inp →
        (inp.milestones = none → (run s inp).1.milestones = [])
        ∧ (inp.badges = none → (run s inp).1.badges = []))
    ∧ (s.first_run = true ∨ s.number_of_donations < fetchedCount s inp →
        0 < fetchedCount s inp →
        (get_donations s.ordered_donor_list inp.donors).isEmpty = false →
        get_donations s.ordered_donor_list inp.topDonors = [] →
        (run s inp).2 = true) := by
  refine ⟨?_, ?_, ⟨rfl, rfl⟩, fun prev => rfl, ?_, ?_, ?_, ?_⟩
  · intro hp
    have hu := run_uncond s inp
    have hf := update_participant_attributes_fail s inp hp
    have hc : fetchedCount s inp = s.number_of_donations := by
      unfold fetchedCount
      rw [hp]
    refine ⟨hu.2.1.trans hf.1, hu.1.trans hc, hu.2.2.1.trans hf.2.2.1,
      hu.2.2.2.2.2.2.2.2.2.2.2.2.2.1.trans hf.2.2.2.1,
      hu.2.2.2.2.2.2.2.2.2.2.2.2.2.2.1.trans hf.2.2.2.2.1,
      hu.2.2.2.2.2.2.2.2.2.2.2.2.2.2.2.1.trans hf.2.2.2.2.2.1,
      hu.2.2.2.2.2.2.2.2.2.2.2.2.2.2.2.2.1.trans hf.2.2.2.2.2.2.1,
      hu.2.2.2.2.2.2.2.2.2.2.2.2.2.2.2.2.2.1.trans hf.2.2.2.2.2.2.2.1,
      hu.2.2.2.2.2.2.2.2.2.2.2.2.2.2.2.2.2.2.1.trans hf.2.2.2.2.2.2.2.2.1,
      hu.2.2.2.2.2.2.2.2.2.2.2.2.2.2.2.2.2.2.2.1.trans hf.2.2.2.2.2.2.2.2.2.1,
      hu.2.2.2.2.2.2.2.2.2.2.2.2.2.2.2.2.2.2.2.2.1.trans hf.2.2.2.2.2.2.2.2.2.2.1,
      hu.2.2.2.2.2.2.2.2.2.2.2.2.2.2.2.2.2.2.2.2.2.1.trans hf.2.2.2.2.2.2.2.2.2.2.2.1,
      hu.2.2.2.2.2.2.2.2.2.2.2.2.2.2.2.2.2.2.2.2.2.2.1.trans hf.2.2.2.2.2.2.2.2.2.2.2.2.1,
      hu.2.2.2.2.2.2.2.2.2.2.2.2.2.2.2.2.2.2.2.2.2.2.2.trans hf.2.2.2.2.2.2.2.2.2.2.2.2.2,
      ?_⟩
    unfold run_warnings
    rw [hp]
    rfl
  · intro htj
    have h5 : get_team_json t tinp
        = (t.team_goal, t.team_captain, t.total_raised, t.num_donations,
           t.team_avatar_image) := by
      unfold get_team_json
      rw [htj]
    have hnum : (team_api_info t tinp).num_donations = t.num_donations := by
      unfold team_api_info
      dsimp only
      rw [h5]
      rfl
    have hgate : ¬ t.num_donations < (team_api_info t tinp).num_donations := by
      rw [hnum]
      exact lt_irrefl _
    have htr : team_run t tinp = team_api_info t tinp := by
      unfold team_run
      dsimp only
      rw [if_neg hgate]
    have hsc : (team_api_info t tinp).team_goal = t.team_goal
        ∧ (team_api_info t tinp).team_captain = t.team_captain
        ∧ (team_api_info t tinp).total_raised = t.total_raised
        ∧ (team_api_info t tinp).team_avatar_image = t.team_avatar_image := by
      unfold team_api_info
      dsimp only
      rw [h5]
      exact ⟨rfl, rfl, rfl, rfl⟩
    refine ⟨htr ▸ hsc.1, htr ▸ hsc.2.1, htr ▸ hsc.2.2.1, htr ▸ hnum, htr ▸ hsc.2.2.2, ?_⟩
    unfold team_run_warnings
    rw [htj]
    dsimp only
    split
    all_goals rfl
  · intro hi
    rw [(run_uncond s inp).2.2.2.2.1, hi]
    rfl
  · intro ha
    rw [(run_uncond s inp).2.2.2.2.2.1, ha]
    rfl
  · intro hok hgate
    constructor
    · intro hm
      rw [(run_gate_open_main s inp hgate hok).1, hm]
      rfl
    · intro hb
      rw [(run_gate_open_main s inp hgate hok).2, hb]
      rfl
  · intro hgate hpos hdl hodl
    unfold run
    rcases hgate with hfr | hlt
    · cases hmt : s.my_team <;>
        simp [update_incentives, update_activities, p_update_badges, update_milestones,
          run_team_block, apply_ite, update_donor_data_snd, update_donation_data_frame,
          update_participant_attributes_frame, hfr, hmt, hpos, hdl, hodl]
    · cases hfr : s.first_run <;> cases hmt : s.my_team <;>
        simp [update_incentives, update_activities, p_update_badges, update_milestones,
          run_team_block, apply_ite, update_donor_data_snd, update_donation_data_frame,
          update_participant_attributes_frame, hfr, hmt, hlt, hpos, hdl, hodl]

/-- Witness for C6 at concrete states: a cycle whose every fetch fails
keeps the participant scalars and logs the participant warning, and a
failing team JSON fetch keeps the team scalars. -/
theorem fetch_failure_semantics_witness :
    (run (initParticipantState "478153" "$" "" 5)
        ⟨none, none, none, none, none, none, none, none, none,
         emptyTeamFetch⟩).1.total_raised = (initParticipantState "478153" "$" "" 5).total_raised
    ∧ (team_run (initTeamState "44013" "$" 5) emptyTeamFetch).team_goal
        = (initTeamState "44013" "$" 5).team_goal
    ∧ (run (initParticipantState "478153" "$" "" 5)
        ⟨none, none, none, none, none, none, none, none, none,
         emptyTeamFetch⟩).1.milestones = []
    ∧ (run (initParticipantState "478153" "$" "44013" 5)
        ⟨some (pjWithCount 1), some [], some [], some [⟨"Alice", 10⟩], none,
         some [], some [], some [], some [], emptyTeamFetch⟩).2 = true := by
  refine ⟨?_, ?_, ?_, ?_⟩
  · exact ((fetch_failure_semantics (initParticipantState "478153" "$" "" 5)
      ⟨none, none, none, none, none, none, none, none, none, emptyTeamFetch⟩
      (initTeamState "44013" "$" 5) emptyTeamFetch).1 rfl).1
  · exact ((fetch_failure_semantics (initParticipantState "478153" "$" "" 5)
      ⟨none, none, none, none, none, none, none, none, none, emptyTeamFetch⟩
      (initTeamState "44013" "$" 5) emptyTeamFetch).2.1 rfl).1
  · exact ((fetch_failure_semantics (initParticipantState "478153" "$" "" 5)
      ⟨none, none, none, none, none, none, none, none, none, emptyTeamFetch⟩
      (initTeamState "44013" "$" 5) emptyTeamFetch).2.2.2.2.2.2.1 rfl
      (Or.inl rfl)).1 rfl
  · exact (fetch_failure_semantics (initParticipantState "478153" "$" "44013" 5)
      ⟨some (pjWithCount 1), some [], some [], some [⟨"Alice", 10⟩], none,
       some [], some [], some [], some [], emptyTeamFetch⟩
      (initTeamState "44013" "$" 5) emptyTeamFetch).2.2.2.2.2.2.2
      (Or.inl rfl) (by decide) rfl rfl

/-- C7: the formatted display string is the currency symbol immediately
followed by the amount rendered with exactly two decimal places and
thousands grouping (for a nonnegative amount: a non-empty integer part
whose commas sit exactly every three digits from the right, a dot, and a
two-digit all-digit decimal part); the participant totals, average and
goal entries and the team goal and total entries all go through this same
rendering; and the concrete instance formats 1234.5 with symbol "$" to
"$1,234.50". -/
theorem currency_formatting (currency_symbol : String) (q : ℚ) (t : TeamState)
    (s : ParticipantState) :
    (format_participant_info_for_output currency_symbol q
        = currency_symbol ++ pyCommaFixed2 q)
    ∧ (0 ≤ q → ∃ ip : List Char, ∃ m : ℕ,
        pyCommaFixed2 q = String.mk ip ++ "." ++ String.mk (pad2 m)
        ∧ m < 100
        ∧ (pad2 m).length = 2
        ∧ (∀ c ∈ pad2 m, c.isDigit = true)
        ∧ ip ≠ []
        ∧ (∀ i, (ip.reverse[i]? = some ',') ↔ (i % 4 = 3 ∧ i < ip.length))
        ∧ (∀ c ∈ ip, c = ',' ∨ c.isDigit = true))
    ∧ dictGet (update_team_dictionary t).team_info "Team_goal"
        = some (format_participant_info_for_output t.currency_symbol t.team_goal)
    ∧ dictGet (update_team_dictionary t).team_info "Team_totalRaised"
        = some (format_participant_info_for_output t.currency_symbol t.total_raised)
    ∧ dictGet (fill_participant_dictionary s).participant_formatted_output "totalRaised"
        = some (format_participant_info_for_output s.currency_symbol s.total_raised)
    ∧ dictGet (fill_participant_dictionary s).participant_formatted_output "averageDonation"
        = some (format_participant_info_for_output s.currency_symbol s.average_donation)
    ∧ dictGet (fill_participant_dictionary s).participant_formatted_output "goal"
        = some (format_participant_info_for_output s.currency_symbol s.goal)
    ∧ format_participant_info_for_output "$" (1234.5 : ℚ) = "$1,234.50" := by
  refine ⟨rfl, ?_, ?_, ?_, ?_, ?_, ?_, ?_⟩
  · intro hq
    have hm : (roundHalfEven (q * 100)).natAbs % 100 < 100 := Nat.mod_lt _ (by norm_num)
    have hgr := groupRev_spec (natDigitsRev ((roundHalfEven (q * 100)).natAbs / 100))
      (natDigitsRev_ne_nil _) (natDigitsRevFuel_digits _ _)
    refine ⟨(groupRev (natDigitsRev ((roundHalfEven (q * 100)).natAbs / 100))).reverse,
      (roundHalfEven (q * 100)).natAbs % 100, pyCommaFixed2_decomp q hq, hm,
      (pad2_spec _ hm).1, (pad2_spec _ hm).2, by simpa using hgr.2.2, ?_, ?_⟩
    · intro i
      rw [List.reverse_reverse, hgr.1 i]
      simp
    · intro c hc
      exact hgr.2.1 c (List.mem_reverse.mp hc)
  · unfold update_team_dictionary
    dsimp only
    rw [dictGet_dictSet, if_neg (by decide), dictGet_dictSet, if_neg (by decide),
        dictGet_dictSet, if_neg (by decide), dictGet_dictSet, if_pos rfl]
    rfl
  · unfold update_team_dictionary
    dsimp only
    rw [dictGet_dictSet, if_neg (by decide), dictGet_dictSet, if_pos rfl]
    rfl
  · unfold fill_participant_dictionary
    dsimp only
    rw [dictGet_dictSet, if_neg (by decide), dictGet_dictSet, if_neg (by decide),
        dictGet_dictSet, if_neg (by decide), dictGet_dictSet, if_pos rfl]
  · unfold fill_participant_dictionary
    dsimp only
    rw [dictGet_dictSet, if_neg (by decide), dictGet_dictSet, if_neg (by decide),
        dictGet_dictSet, if_pos rfl]
  · unfold fill_participant_dictionary
    dsimp only
    rw [dictGet_dictSet, if_neg (by decide), dictGet_dictSet, if_pos rfl]
  · have h100 : (1234.5 : ℚ) * 100 = 123450 := by norm_num
    rw [format_participant_info_for_output, pyCommaFixed2, h100]
    decide

/-- Witness for C7 at the claim's concrete inputs: the rendered string for
1234.5 dollars, and the decomposition instantiated at a nonnegative
amount. -/
theorem currency_formatting_witness :
    format_participant_info_for_output "$" (1234.5 : ℚ) = "$1,234.50"
    ∧ ∃ ip : List Char, ∃ m : ℕ,
        pyCommaFixed2 (1234.5 : ℚ) = String.mk ip ++ "." ++ String.mk (pad2 m)
        ∧ m < 100 ∧ (pad2 m).length = 2 := by
  constructor
  · exact (currency_formatting "$" (1234.5 : ℚ) (initTeamState "44013" "$" 5)
      (initParticipantState "478153" "$" "" 5)).2.2.2.2.2.2.2
  · obtain ⟨ip, m, h1, h2, h3, _⟩ := (currency_formatting "$" (1234.5 : ℚ)
      (initTeamState "44013" "$" 5) (initParticipantState "478153" "$" "" 5)).2.1
      (by norm_num)
    exact ⟨ip, m, h1, h2, h3⟩

end DonorDrive
